import Mathlib

/-!
# upfirdn2d host entry point (`torch_utils/ops/upfirdn2d.cpp.dp.cpp`)

A shallow embedding of the host function `upfirdn2d`: argument validation,
output-size derivation, construction of the kernel parameter record, the
looping options and the launch geometry.

Conventions of the embedding.

* C `int` values are mathematical integers reduced to the two's complement
  range after every operation (`wrapInt`); `int64_t` likewise (`wrapInt64`);
  `size_t` values are naturals reduced modulo `2^64`.  Signed overflow is
  undefined in C++; the reduction is what the compiled code does on the
  targets of the extension, and a statement that needs the absence of
  overflow says so in its hypotheses.
* `/` on `int` is the truncating division of C++ (`Int.tdiv`).  An integer
  division by zero is undefined in C++ and traps on the targets of the
  extension; the body of `upfirdn2d` ends with the failure `divisionByZero`
  where the source would divide by zero.
* A tensor is its metadata (device, element type, axes with extent and signed
  stride, the answer of `suggest_memory_format`) and its storage.  The element
  values are never inspected by the host function, so their type is a
  parameter.
* `choose_upfirdn2d_kernel` lives in the kernel translation unit; it is a
  parameter `choose` of the embedding.  `torch::empty` is a parameter `alloc`
  giving the contents of the fresh storage, or nothing when the allocation
  fails.
-/

namespace Upfirdn2d

/-! ## Machine integers -/

/-- Largest value of a C `int`. -/
def INT_MAX : Int := 2147483647

/-- Reduction of an integer to the range of a C `int` (32 bits, two's complement). -/
def wrapInt (v : Int) : Int := (v + 2147483648) % 4294967296 - 2147483648

/-- Reduction of an integer to the range of `int64_t`. -/
def wrapInt64 (v : Int) : Int :=
  (v + 9223372036854775808) % 18446744073709551616 - 9223372036854775808

/-- Conversion of an integer to `size_t` (64 bits, unsigned). -/
def toSize (v : Int) : Nat := (v % 18446744073709551616).toNat

/-- Sum of two `int`. -/
def addInt (a b : Int) : Int := wrapInt (a + b)

/-- Difference of two `int`. -/
def subInt (a b : Int) : Int := wrapInt (a - b)

/-- Product of two `int`. -/
def mulInt (a b : Int) : Int := wrapInt (a * b)

/-- Quotient of two `int`, rounded towards zero. -/
def divInt (a b : Int) : Int := wrapInt (Int.tdiv a b)

/-- Sum of two `int64_t`. -/
def addInt64 (a b : Int) : Int := wrapInt64 (a + b)

/-- Difference of two `int64_t`. -/
def subInt64 (a b : Int) : Int := wrapInt64 (a - b)

/-- Product of two `int64_t`. -/
def mulInt64 (a b : Int) : Int := wrapInt64 (a * b)

/-- Sum of two `size_t`. -/
def addSize (a b : Nat) : Nat := (a + b) % 18446744073709551616

/-- Product of two `size_t`. -/
def mulSize (a b : Nat) : Nat := (a * b) % 18446744073709551616

/-- Quotient of two `size_t`. -/
def divSize (a b : Nat) : Nat := a / b

/-! ## Tensors -/

/-- Kind of device a tensor lives on. -/
inductive DeviceType where
  | CPU
  | CUDA
  | XPU
deriving DecidableEq, Repr

/-- A device: its kind and its ordinal. -/
structure Device where
  kind : DeviceType
  index : Int
deriving DecidableEq, Repr

/-- Element types of a tensor. -/
inductive ScalarType where
  | Byte
  | Char
  | Short
  | Int
  | Long
  | Half
  | Float
  | Double
  | Bool
  | BFloat16
deriving DecidableEq, Repr

/-- Answer of `suggest_memory_format` for a 4-axis tensor. -/
inductive MemoryFormat where
  | Contiguous
  | ChannelsLast
deriving DecidableEq, Repr

/-- One axis of a tensor view: element count and signed stride in elements. -/
structure Axis where
  size : Nat
  stride : Int
deriving DecidableEq, Repr

/-- A tensor: metadata and storage. -/
structure Tensor (α : Type) where
  device : Device
  dtype : ScalarType
  axes : List Axis
  memoryFormat : MemoryFormat
  storage : List α

namespace Tensor

variable {α : Type}

/-- The call `t.is_xpu()`. -/
def is_xpu (t : Tensor α) : Bool := t.device.kind == DeviceType.XPU

/-- The call `t.dim()`. -/
def dim (t : Tensor α) : Nat := t.axes.length

/-- The call `t.numel()`. -/
def numel (t : Tensor α) : Nat := (t.axes.map Axis.size).prod

/-- The call `t.size(i)`; every read in `upfirdn2d` follows the rank check. -/
def size (t : Tensor α) (i : Nat) : Int := ((t.axes.getD i ⟨0, 0⟩).size : Int)

/-- The call `t.stride(i)`; every read in `upfirdn2d` follows the rank check. -/
def stride (t : Tensor α) (i : Nat) : Int := (t.axes.getD i ⟨0, 0⟩).stride

/-- The expression
`(t.size(0)-1)*t.stride(0) + (t.size(1)-1)*t.stride(1) + (t.size(2)-1)*t.stride(2) + (t.size(3)-1)*t.stride(3)`
evaluated in `int64_t`. -/
def footprint (t : Tensor α) : Int :=
  addInt64
    (addInt64
      (addInt64
        (mulInt64 (subInt64 (t.size 0) 1) (t.stride 0))
        (mulInt64 (subInt64 (t.size 1) 1) (t.stride 1)))
      (mulInt64 (subInt64 (t.size 2) 1) (t.stride 2)))
    (mulInt64 (subInt64 (t.size 3) 1) (t.stride 3))

end Tensor

/-- Strides that `torch::empty` gives a tensor of extents `(n, c, h, w)`; the
batch extent does not enter them. -/
def emptyStrides (fmt : MemoryFormat) (c h w : Nat) : List Int :=
  match fmt with
  | MemoryFormat.Contiguous => [((c * h * w : Nat) : Int), ((h * w : Nat) : Int), (w : Int), 1]
  | MemoryFormat.ChannelsLast => [((h * w * c : Nat) : Int), 1, ((w * c : Nat) : Int), (c : Int)]

/-- Axes that `torch::empty` gives a tensor of extents `(n, c, h, w)`. -/
def emptyAxes (fmt : MemoryFormat) (n c h w : Nat) : List Axis :=
  List.zipWith Axis.mk [n, c, h, w] (emptyStrides fmt c h w)

/-! ## Failures -/

/-- The ways `upfirdn2d` can fail, one per `TORCH_CHECK`, plus the failures of
the dispatch and of the allocation, and the integer division by zero. -/
inductive Failure where
  | xNotOnXpu
  | fOtherDevice
  | fNotFloat32
  | xTooLarge
  | fTooLarge
  | xZeroSize
  | fZeroSize
  | xNotRank4
  | fNotRank2
  | xFootprintTooLarge
  | fTooSmall
  | upTooSmall
  | downTooSmall
  | outputTooSmall
  | allocationFailed
  | outputTooLarge
  | outputFootprintTooLarge
  | notImplemented
  | divisionByZero
deriving DecidableEq, Repr

/-- Message carried by each failure. -/
def Failure.message : Failure → String
  | .xNotOnXpu => "x must reside on XPU device"
  | .fOtherDevice => "f must reside on the same device as x"
  | .fNotFloat32 => "f must be float32"
  | .xTooLarge => "x is too large"
  | .fTooLarge => "f is too large"
  | .xZeroSize => "x has zero size"
  | .fZeroSize => "f has zero size"
  | .xNotRank4 => "x must be rank 4"
  | .fNotRank2 => "f must be rank 2"
  | .xFootprintTooLarge => "x memory footprint is too large"
  | .fTooSmall => "f must be at least 1x1"
  | .upTooSmall => "upsampling factor must be at least 1"
  | .downTooSmall => "downsampling factor must be at least 1"
  | .outputTooSmall => "output must be at least 1x1"
  | .allocationFailed => "allocation of the output failed"
  | .outputTooLarge => "output is too large"
  | .outputFootprintTooLarge => "output memory footprint is too large"
  | .notImplemented => "upfirdn2d_cuda not implemented for the element type of x"
  | .divisionByZero => "integer division by zero"

/-- The macro `TORCH_CHECK(cond, msg)`. -/
def TORCH_CHECK (cond : Bool) (e : Failure) : Except Failure Unit :=
  if cond then .ok () else .error e

/-- An integer division by `d` in the source: the call goes on when `d` is not
zero and ends with `divisionByZero` when it is. -/
def trapOnZero (d : Int) : Except Failure Unit :=
  if d = 0 then .error Failure.divisionByZero else .ok ()

/-! ## Kernel parameter record and kernel spec -/

/-- The vector type `sycl::int2`. -/
structure Int2 where
  x : Int
  y : Int
deriving DecidableEq, Repr

/-- The vector type `sycl::int4`. -/
structure Int4 where
  x : Int
  y : Int
  z : Int
  w : Int
deriving DecidableEq, Repr

/-- The type `sycl::range<3>`, indexed `[0]`, `[1]`, `[2]`. -/
structure Range3 where
  r0 : Nat
  r1 : Nat
  r2 : Nat
deriving DecidableEq, Repr

/-- The record `upfirdn2d_kernel_params`, without its three data pointers. -/
structure upfirdn2d_kernel_params (G : Type) where
  up : Int2
  down : Int2
  pad0 : Int2
  flip : Int
  gain : G
  inSize : Int4
  inStride : Int4
  filterSize : Int2
  filterStride : Int2
  outSize : Int4
  outStride : Int4
  sizeMajor : Int
  sizeMinor : Int
  loopMajor : Int
  loopMinor : Int
  loopX : Int
  launchMinor : Int
  launchMajor : Int

/-- The record `upfirdn2d_kernel_spec`, without its kernel pointer. -/
structure upfirdn2d_kernel_spec where
  tileOutW : Int
  tileOutH : Int
  loopMinor : Int
  loopX : Int
deriving DecidableEq, Repr

/-! ## The host function -/

section Host

variable {α G : Type}

/-- Lines 25-37: the argument checks, in source order. -/
def validateArguments (x f : Tensor α) (upx upy downx downy : Int) : Except Failure Unit := do
  TORCH_CHECK x.is_xpu Failure.xNotOnXpu
  TORCH_CHECK (f.device == x.device) Failure.fOtherDevice
  TORCH_CHECK (f.dtype == ScalarType.Float) Failure.fNotFloat32
  TORCH_CHECK (decide ((x.numel : Int) ≤ INT_MAX)) Failure.xTooLarge
  TORCH_CHECK (decide ((f.numel : Int) ≤ INT_MAX)) Failure.fTooLarge
  TORCH_CHECK (decide (x.numel > 0)) Failure.xZeroSize
  TORCH_CHECK (decide (f.numel > 0)) Failure.fZeroSize
  TORCH_CHECK (decide (x.dim = 4)) Failure.xNotRank4
  TORCH_CHECK (decide (f.dim = 2)) Failure.fNotRank2
  TORCH_CHECK (decide (x.footprint ≤ INT_MAX)) Failure.xFootprintTooLarge
  TORCH_CHECK (decide (f.size 0 ≥ 1) && decide (f.size 1 ≥ 1)) Failure.fTooSmall
  TORCH_CHECK (decide (upx ≥ 1) && decide (upy ≥ 1)) Failure.upTooSmall
  TORCH_CHECK (decide (downx ≥ 1) && decide (downy ≥ 1)) Failure.downTooSmall

/-- The expression `((int)inSize * up + pad0 + pad1 - (int)filterSize + down) / down`
of lines 41 and 42, evaluated in `int`. -/
def outExtent (inSize up pad0 pad1 filterSize down : Int) : Int :=
  divInt
    (addInt (subInt (addInt (addInt (mulInt (wrapInt inSize) up) pad0) pad1) (wrapInt filterSize)) down)
    down

/-- The call `torch::empty({n, c, outH, outW}, x.options(), x.suggest_memory_format())`
with fresh storage `fresh`. -/
def torch_empty (x : Tensor α) (n c outH outW : Int) (fresh : List α) : Tensor α :=
  { device := x.device
    dtype := x.dtype
    axes := emptyAxes x.memoryFormat n.toNat c.toNat outH.toNat outW.toNat
    memoryFormat := x.memoryFormat
    storage := fresh }

/-- Lines 49-70: the kernel parameter record before the looping options are
set; the five looping fields are not yet written and stand at zero. -/
def initParams (x f y : Tensor α) (upx upy downx downy padx0 pady0 : Int) (flip : Bool)
    (gain : G) : upfirdn2d_kernel_params G :=
  let inSize : Int4 :=
    ⟨wrapInt (x.size 3), wrapInt (x.size 2), wrapInt (x.size 1), wrapInt (x.size 0)⟩
  let inStride : Int4 :=
    ⟨wrapInt (x.stride 3), wrapInt (x.stride 2), wrapInt (x.stride 1), wrapInt (x.stride 0)⟩
  { up := ⟨upx, upy⟩
    down := ⟨downx, downy⟩
    pad0 := ⟨padx0, pady0⟩
    flip := if flip then 1 else 0
    gain := gain
    inSize := inSize
    inStride := inStride
    filterSize := ⟨wrapInt (f.size 1), wrapInt (f.size 0)⟩
    filterStride := ⟨wrapInt (f.stride 1), wrapInt (f.stride 0)⟩
    outSize := ⟨wrapInt (y.size 3), wrapInt (y.size 2), wrapInt (y.size 1), wrapInt (y.size 0)⟩
    outStride :=
      ⟨wrapInt (y.stride 3), wrapInt (y.stride 2), wrapInt (y.stride 1), wrapInt (y.stride 0)⟩
    sizeMajor := if inStride.z = 1 then inSize.w else mulInt inSize.w inSize.z
    sizeMinor := if inStride.z = 1 then inSize.z else 1
    loopMajor := 0
    loopMinor := 0
    loopX := 0
    launchMinor := 0
    launchMajor := 0 }

/-- The macro `AT_DISPATCH_FLOATING_TYPES_AND_HALF`: the element types it accepts. -/
def isFloatingOrHalf : ScalarType → Bool
  | ScalarType.Double => true
  | ScalarType.Float => true
  | ScalarType.Half => true
  | _ => false

/-- Lines 80-84: the looping options. -/
def setLoopingOptions (p : upfirdn2d_kernel_params G) (spec : upfirdn2d_kernel_spec) :
    upfirdn2d_kernel_params G :=
  let loopMajor := addInt (divInt (subInt p.sizeMajor 1) 16384) 1
  let loopMinor := spec.loopMinor
  let loopX := spec.loopX
  let launchMinor := addInt (divInt (subInt p.sizeMinor 1) loopMinor) 1
  let launchMajor := addInt (divInt (subInt p.sizeMajor 1) loopMajor) 1
  { p with
    loopMajor := loopMajor
    loopMinor := loopMinor
    loopX := loopX
    launchMinor := launchMinor
    launchMajor := launchMajor }

/-- The divisor of the column count: `blockSize[1] * p.loopX` of line 92, a
`size_t`, in the large branch and `spec.tileOutW * p.loopX` of line 99, an
`int`, in the small branch. -/
def gridDivisorX (p : upfirdn2d_kernel_params G) (spec : upfirdn2d_kernel_spec) : Int :=
  if spec.tileOutW < 0 then ((mulSize 32 (toSize p.loopX) : Nat) : Int)
  else mulInt spec.tileOutW p.loopX

/-- The divisor of the row count: `blockSize[2]` of line 93, which is 4, in the
large branch and `spec.tileOutH` of line 100 in the small branch. -/
def gridDivisorY (spec : upfirdn2d_kernel_spec) : Int :=
  if spec.tileOutW < 0 then 4 else spec.tileOutH

/-- Lines 87-101: the work-group shape `blockSize`. -/
def computeBlockSize (spec : upfirdn2d_kernel_spec) : Range3 :=
  if spec.tileOutW < 0 then ⟨1, 32, 4⟩ else ⟨1, 1, 256⟩

/-- Lines 87-101: the grid `gridSize`.  In the large branch the operands meet
`blockSize[i]`, a `size_t`, so the arithmetic is unsigned 64-bit; in the small
branch it is `int` arithmetic converted to `size_t` at the end.  The divisors
are `gridDivisorX` and `gridDivisorY`; `upfirdn2d_body` tests them before it
evaluates this expression. -/
def computeGridSize (p : upfirdn2d_kernel_params G) (spec : upfirdn2d_kernel_spec) : Range3 :=
  if spec.tileOutW < 0 then
    let blockSize : Range3 := ⟨1, 32, 4⟩
    ⟨toSize p.launchMajor,
     addSize (divSize (toSize (subInt p.outSize.x 1)) (mulSize blockSize.r1 (toSize p.loopX))) 1,
     mulSize (addSize (divSize (toSize (subInt p.outSize.y 1)) blockSize.r2) 1)
       (toSize p.launchMinor)⟩
  else
    ⟨toSize p.launchMajor,
     toSize (addInt (divInt (subInt p.outSize.x 1) (mulInt spec.tileOutW p.loopX)) 1),
     toSize (mulInt (addInt (divInt (subInt p.outSize.y 1) spec.tileOutH) 1) p.launchMinor)⟩

/-- Everything `upfirdn2d` has computed when it returns. -/
structure Launch (α G : Type) where
  y : Tensor α
  p : upfirdn2d_kernel_params G
  spec : upfirdn2d_kernel_spec
  blockSize : Range3
  gridSize : Range3

/-- The body of `upfirdn2d`, lines 22-122, returning its local state.  The
kernel launch of lines 116-121 is commented out in the source, so nothing is
done with the launch geometry and `y` is returned as allocated.  The values
of lines 80-84 and 87-101 are pure, so each division is tested for a zero
divisor right after the expression it belongs to. -/
def upfirdn2d_body
    (choose : ScalarType → upfirdn2d_kernel_params G → upfirdn2d_kernel_spec)
    (alloc : Nat → Option (List α))
    (x f : Tensor α) (upx upy downx downy padx0 padx1 pady0 pady1 : Int) (flip : Bool)
    (gain : G) : Except Failure (Launch α G) := do
  -- Validate arguments.
  validateArguments x f upx upy downx downy
  -- Create output tensor.
  let outW := outExtent (x.size 3) upx padx0 padx1 (f.size 1) downx
  let outH := outExtent (x.size 2) upy pady0 pady1 (f.size 0) downy
  TORCH_CHECK (decide (outW ≥ 1) && decide (outH ≥ 1)) Failure.outputTooSmall
  let n := x.size 0
  let c := x.size 1
  match alloc (n.toNat * c.toNat * outH.toNat * outW.toNat) with
  | none => .error Failure.allocationFailed
  | some fresh =>
    let y := torch_empty x n c outH outW fresh
    TORCH_CHECK (decide ((y.numel : Int) ≤ INT_MAX)) Failure.outputTooLarge
    TORCH_CHECK (decide (y.footprint ≤ INT_MAX)) Failure.outputFootprintTooLarge
    -- Initialize kernel parameters.
    let p := initParams x f y upx upy downx downy padx0 pady0 flip gain
    -- Choose kernel.
    TORCH_CHECK (isFloatingOrHalf x.dtype) Failure.notImplemented
    let spec := choose x.dtype p
    -- Set looping options: lines 83 and 84 divide by loopMinor and loopMajor.
    let p := setLoopingOptions p spec
    trapOnZero p.loopMinor
    trapOnZero p.loopMajor
    -- Compute grid size: lines 92-93 or 99-100 divide.
    let blockSize := computeBlockSize spec
    trapOnZero (gridDivisorX p spec)
    trapOnZero (gridDivisorY spec)
    let gridSize := computeGridSize p spec
    -- Launch kernel: commented out in the source.
    return { y := y, p := p, spec := spec, blockSize := blockSize, gridSize := gridSize }

/-- The function `upfirdn2d`: the tensor it returns, or the failure it raises. -/
def upfirdn2d
    (choose : ScalarType → upfirdn2d_kernel_params G → upfirdn2d_kernel_spec)
    (alloc : Nat → Option (List α))
    (x f : Tensor α) (upx upy downx downy padx0 padx1 pady0 pady1 : Int) (flip : Bool)
    (gain : G) : Except Failure (Tensor α) :=
  (upfirdn2d_body choose alloc x f upx upy downx downy padx0 padx1 pady0 pady1 flip gain).map
    Launch.y

end Host

/-! ## The specification's own formulations -/

/-- The extents of a tensor, `t.sizes()`. -/
def Tensor.sizes {α : Type} (t : Tensor α) : List Nat := t.axes.map Axis.size

/-- Output extent as the specification words it: the floor of
`(inSize*up + pad0 + pad1 - filterSize + down) / down` over the integers. -/
def floorOutExtent (inSize up pad0 pad1 filterSize down : Int) : Int :=
  Int.fdiv (inSize * up + pad0 + pad1 - filterSize + down) down

/-- The conditions that the checks of lines 25-37 test, as one conjunction in
the order of the specification's list.  This is the code side: its footprint
conjunct is the 64-bit sum that line 34 evaluates, `Tensor.footprint`; the
specification's own list is `SpecValidArguments`. -/
def CheckedConditions {α : Type} (x f : Tensor α) (upx upy downx downy : Int) : Prop :=
  (x.device.kind = DeviceType.XPU ∧ f.device = x.device) ∧
  f.dtype = ScalarType.Float ∧
  (0 < x.numel ∧ (x.numel : Int) ≤ 2 ^ 31 - 1) ∧
  (0 < f.numel ∧ (f.numel : Int) ≤ 2 ^ 31 - 1) ∧
  x.dim = 4 ∧
  f.dim = 2 ∧
  x.footprint ≤ 2 ^ 31 - 1 ∧
  (1 ≤ f.size 0 ∧ 1 ≤ f.size 1) ∧
  (1 ≤ upx ∧ 1 ≤ upy) ∧
  (1 ≤ downx ∧ 1 ≤ downy)

/-! ## Concrete inputs -/

/-- A float32 tensor on XPU device 0 with the given axes and storage; element
values are written as integers. -/
def xpuFloat (axes : List Axis) (storage : List Int) : Tensor Int :=
  { device := ⟨DeviceType.XPU, 0⟩
    dtype := ScalarType.Float
    axes := axes
    memoryFormat := MemoryFormat.Contiguous
    storage := storage }

/-- A contiguous input of shape `(1, 1, 1, 65536)`. -/
def wideInput : Tensor Int :=
  xpuFloat [⟨1, 65536⟩, ⟨1, 65536⟩, ⟨1, 65536⟩, ⟨65536, 1⟩] []

/-- A contiguous input of shape `(1, 1, 1, 1)`. -/
def pixelInput : Tensor Int := xpuFloat [⟨1, 1⟩, ⟨1, 1⟩, ⟨1, 1⟩, ⟨1, 1⟩] [5]

/-- The `1x1` filter `[[1.0]]`. -/
def unitFilter : Tensor Int := xpuFloat [⟨1, 1⟩, ⟨1, 1⟩] [1]

/-- A selector that always answers the large-filter kernel with unit loops. -/
def chooseLarge : ScalarType → upfirdn2d_kernel_params Int → upfirdn2d_kernel_spec :=
  fun _ _ => ⟨-1, -1, 1, 1⟩

/-- An allocator that never fails and hands out zero-filled storage. -/
def allocZero : Nat → Option (List Int) := fun n => some (List.replicate n 0)

/-- The extents of the returned tensor. -/
def returnedSizes (r : Except Failure (Tensor Int)) : Except Failure (List Nat) :=
  r.map Tensor.sizes

/-- Every element offset reachable through the given axes: the sums
`i0*s0 + i1*s1 + ...` over all in-range indices. -/
def reachableOffsets : List Axis → List Int
  | [] => [0]
  | a :: rest =>
    (List.range a.size).flatMap fun i => (reachableOffsets rest).map fun o => (i : Int) * a.stride + o

/-- The maximum element offset reachable through the given axes, when there is one. -/
def maxReachableOffset (axes : List Axis) : Option Int := (reachableOffsets axes).max?

/-- Sum of `(size-1)*stride` over the axes, in exact integers. -/
def exactFootprint : List Axis → Int
  | [] => 0
  | a :: rest => ((a.size : Int) - 1) * a.stride + exactFootprint rest

/-- An input of shape `(2, 1, 1, 2)` whose outer stride is negative. -/
def crossedInput : Tensor Int :=
  xpuFloat [⟨2, -2147483648⟩, ⟨1, 0⟩, ⟨1, 0⟩, ⟨2, 2147483648⟩] []


/-- An input of shape `(1, 1, 1, 5)` with an inner stride of `2^62`. -/
def sparseInput : Tensor Int :=
  xpuFloat [⟨1, 0⟩, ⟨1, 0⟩, ⟨1, 0⟩, ⟨5, 4611686018427387904⟩] []

/-- The exact rational ceiling of `a / b`. -/
def ceilDiv (a b : Int) : Int := ⌈(a : ℚ) / (b : ℚ)⌉


/-- The contiguous `(1, 1, 4, 4)` input filled with `1..16` in row-major order. -/
def rampInput : Tensor Int :=
  xpuFloat [⟨1, 16⟩, ⟨1, 16⟩, ⟨4, 4⟩, ⟨4, 1⟩]
    [1, 2, 3, 4, 5, 6, 7, 8, 9, 10, 11, 12, 13, 14, 15, 16]

/-- An input of shape `(2, 2, 1, 1)` whose batch and channel strides are
`-(2^32+1)` and `2^32+1`. -/
def aliasedInput : Tensor Int :=
  xpuFloat [⟨2, -4294967297⟩, ⟨2, 4294967297⟩, ⟨1, 1⟩, ⟨1, 1⟩] []

/-- A selector that always answers a small-filter kernel with a `64x16` tile
and unit loops. -/
def chooseSmall : ScalarType → upfirdn2d_kernel_params Int → upfirdn2d_kernel_spec :=
  fun _ _ => ⟨64, 16, 1, 1⟩

/-- A parameter record with the given major and minor sizes and zero elsewhere. -/
def paramsOfSizes (sizeMajor sizeMinor : Int) : upfirdn2d_kernel_params Int :=
  { up := ⟨0, 0⟩
    down := ⟨0, 0⟩
    pad0 := ⟨0, 0⟩
    flip := 0
    gain := 0
    inSize := ⟨0, 0, 0, 0⟩
    inStride := ⟨0, 0, 0, 0⟩
    filterSize := ⟨0, 0⟩
    filterStride := ⟨0, 0⟩
    outSize := ⟨0, 0, 0, 0⟩
    outStride := ⟨0, 0, 0, 0⟩
    sizeMajor := sizeMajor
    sizeMinor := sizeMinor
    loopMajor := 0
    loopMinor := 0
    loopX := 0
    launchMinor := 0
    launchMajor := 0 }

/-- Width `W` that sizes the grid columns: the fixed work-group width 32 of the
large-filter strategy, the tile width of the small-filter strategy. -/
def gridUnitW (spec : upfirdn2d_kernel_spec) : Int :=
  if spec.tileOutW < 0 then 32 else spec.tileOutW

/-- Height `H` that sizes the grid rows: the fixed work-group height 4 of the
large-filter strategy, the tile height of the small-filter strategy. -/
def gridUnitH (spec : upfirdn2d_kernel_spec) : Int :=
  if spec.tileOutW < 0 then 4 else spec.tileOutH

/-- A contiguous input of shape `(1, 1, 1, 100000)`. -/
def longInput : Tensor Int :=
  xpuFloat [⟨1, 100000⟩, ⟨1, 100000⟩, ⟨1, 100000⟩, ⟨100000, 1⟩] []

/-- A selector answering a small-filter spec with tile `65536x1` and
`loopX = 65537`, whose product exceeds a C `int`. -/
def chooseWrapping : ScalarType → upfirdn2d_kernel_params Int → upfirdn2d_kernel_spec :=
  fun _ _ => ⟨65536, 1, 1, 65537⟩


/-- A contiguous input of shape `(1, 1, 1, 65537)`. -/
def edgeInput : Tensor Int :=
  xpuFloat [⟨1, 65537⟩, ⟨1, 65537⟩, ⟨1, 65537⟩, ⟨65537, 1⟩] []

/-- A selector answering a small-filter spec with tile `65536x1` and
`loopX = 65535`, whose product reads `-65536` as a C `int`. -/
def chooseNegating : ScalarType → upfirdn2d_kernel_params Int → upfirdn2d_kernel_spec :=
  fun _ _ => ⟨65536, 1, 1, 65535⟩

/-- A selector answering a spec with tile `0x0` and unit loops. -/
def chooseZeroTile : ScalarType → upfirdn2d_kernel_params Int → upfirdn2d_kernel_spec :=
  fun _ _ => ⟨0, 0, 1, 1⟩


/-- The window condition of an output column `n` (counted from 1): its
receptive window `(n-1)*down + filterSize` lies inside the up-sampled, padded
extent `inSize*up + pad0 + pad1`. -/
def windowFits (n down filterSize inSize up pad0 pad1 : Int) : Prop :=
  (n - 1) * down + filterSize ≤ inSize * up + pad0 + pad1

instance (n down filterSize inSize up pad0 pad1 : Int) :
    Decidable (windowFits n down filterSize inSize up pad0 pad1) := by
  unfold windowFits
  infer_instance

/-- A `(1, 1, 4, 4)` input whose two outer axes, of extent 1, carry a stride of
`2^40`; its inner axes are contiguous. -/
def stridedInput : Tensor Int :=
  xpuFloat [⟨1, 1099511627776⟩, ⟨1, 1099511627776⟩, ⟨4, 4⟩, ⟨4, 1⟩]
    [1, 2, 3, 4, 5, 6, 7, 8, 9, 10, 11, 12, 13, 14, 15, 16]

/-- A `2x1` filter whose rows are `2^32+1` elements apart. -/
def stridedFilter : Tensor Int := xpuFloat [⟨2, 4294967297⟩, ⟨1, 1⟩] [1]

/-- The argument conditions as the specification lists them; the footprint of
`x` is the maximum element offset reachable through its shape and strides. -/
def SpecValidArguments {α : Type} (x f : Tensor α) (upx upy downx downy : Int) : Prop :=
  (x.device.kind = DeviceType.XPU ∧ f.device = x.device) ∧
  f.dtype = ScalarType.Float ∧
  (0 < x.numel ∧ (x.numel : Int) ≤ 2 ^ 31 - 1) ∧
  (0 < f.numel ∧ (f.numel : Int) ≤ 2 ^ 31 - 1) ∧
  x.dim = 4 ∧
  f.dim = 2 ∧
  (∃ m, maxReachableOffset x.axes = some m ∧ m ≤ 2 ^ 31 - 1) ∧
  (1 ≤ f.size 0 ∧ 1 ≤ f.size 1) ∧
  (1 ≤ upx ∧ 1 ≤ upy) ∧
  (1 ≤ downx ∧ 1 ≤ downy)

/-- A `(1, 1, 2, 2)` input with non-negative strides whose rows are `2^31`
elements apart. -/
def farInput : Tensor Int :=
  xpuFloat [⟨1, 0⟩, ⟨1, 0⟩, ⟨2, 2147483648⟩, ⟨2, 1⟩] []

/-- A channels-last input of shape `(2, 8, 5, 7)`: strides `(280, 1, 56, 8)`. -/
def channelsLastInput : Tensor Int :=
  { device := ⟨DeviceType.XPU, 0⟩
    dtype := ScalarType.Float
    axes := [⟨2, 280⟩, ⟨8, 1⟩, ⟨5, 56⟩, ⟨7, 8⟩]
    memoryFormat := MemoryFormat.ChannelsLast
    storage := [] }

/-- A contiguous input of shape `(2, 3, 4, 4)`: strides `(48, 16, 4, 1)`. -/
def batchInput : Tensor Int :=
  xpuFloat [⟨2, 48⟩, ⟨3, 16⟩, ⟨4, 4⟩, ⟨4, 1⟩] []

/-! ## Auxiliary lemmas -/

theorem validateArguments_eq_ok_iff {α : Type} (x f : Tensor α) (upx upy downx downy : Int) :
    validateArguments x f upx upy downx downy = .ok () ↔
      CheckedConditions x f upx upy downx downy := by
  unfold validateArguments CheckedConditions TORCH_CHECK Tensor.is_xpu INT_MAX
  simp only [bind, Except.bind]
  norm_num
  split_ifs <;> simp_all

theorem upfirdn2d_body_error_of_validate {α G : Type}
    (choose : ScalarType → upfirdn2d_kernel_params G → upfirdn2d_kernel_spec)
    (alloc : Nat → Option (List α))
    (x f : Tensor α) (upx upy downx downy padx0 padx1 pady0 pady1 : Int) (flip : Bool)
    (gain : G) (e : Failure) (h : validateArguments x f upx upy downx downy = .error e) :
    upfirdn2d_body choose alloc x f upx upy downx downy padx0 padx1 pady0 pady1 flip gain
      = .error e := by
  unfold upfirdn2d_body
  simp only [bind, Except.bind, h]

theorem mem_reachableOffsets_four (a0 a1 a2 a3 : Axis) (o : Int) :
    o ∈ reachableOffsets [a0, a1, a2, a3] ↔
      ∃ i0 < a0.size, ∃ i1 < a1.size, ∃ i2 < a2.size, ∃ i3 < a3.size,
        o = (i0 : Int) * a0.stride + ((i1 : Int) * a1.stride + ((i2 : Int) * a2.stride + ((i3 : Int) * a3.stride + 0))) := by
  simp only [reachableOffsets, List.mem_flatMap, List.mem_range, List.mem_map, List.mem_singleton]
  constructor
  · rintro ⟨i0, h0, o1, ⟨i1, h1, o2, ⟨i2, h2, o3, ⟨i3, h3, o4, rfl, rfl⟩, rfl⟩, rfl⟩, rfl⟩
    exact ⟨i0, h0, i1, h1, i2, h2, i3, h3, rfl⟩
  · rintro ⟨i0, h0, i1, h1, i2, h2, i3, h3, rfl⟩
    exact ⟨i0, h0, _, ⟨i1, h1, _, ⟨i2, h2, _, ⟨i3, h3, _, rfl, rfl⟩, rfl⟩, rfl⟩, rfl⟩

theorem exactFootprint_mem (axes : List Axis) (hpos : ∀ a ∈ axes, 1 ≤ a.size) :
    exactFootprint axes ∈ reachableOffsets axes := by
  induction axes with
  | nil => simp [exactFootprint, reachableOffsets]
  | cons a rest ih =>
    have ha : 1 ≤ a.size := hpos a (List.mem_cons_self _ _)
    have hrest := ih (fun b hb => hpos b (List.mem_cons_of_mem _ hb))
    simp only [reachableOffsets, List.mem_flatMap, List.mem_range, List.mem_map]
    refine ⟨a.size - 1, by omega, exactFootprint rest, hrest, ?_⟩
    simp only [exactFootprint]
    have : ((a.size - 1 : Nat) : Int) = (a.size : Int) - 1 := by omega
    rw [this]

theorem le_exactFootprint (axes : List Axis) (hs : ∀ a ∈ axes, 0 ≤ a.stride) :
    ∀ o ∈ reachableOffsets axes, o ≤ exactFootprint axes := by
  induction axes with
  | nil => intro o ho; simp [reachableOffsets] at ho; simp [exactFootprint, ho]
  | cons a rest ih =>
    intro o ho
    have ha : 0 ≤ a.stride := hs a (List.mem_cons_self _ _)
    have hrest := ih (fun b hb => hs b (List.mem_cons_of_mem _ hb))
    simp only [reachableOffsets, List.mem_flatMap, List.mem_range, List.mem_map] at ho
    obtain ⟨i, hi, o1, ho1, rfl⟩ := ho
    have h1 := hrest o1 ho1
    simp only [exactFootprint]
    have h2 : (i : Int) * a.stride ≤ ((a.size : Int) - 1) * a.stride :=
      mul_le_mul_of_nonneg_right (by omega) ha
    omega

theorem maxReachableOffset_eq (axes : List Axis) (hpos : ∀ a ∈ axes, 1 ≤ a.size)
    (hs : ∀ a ∈ axes, 0 ≤ a.stride) :
    maxReachableOffset axes = some (exactFootprint axes) := by
  unfold maxReachableOffset
  haveI : Std.Antisymm (fun (a b : Int) => a ≤ b) := ⟨fun h1 h2 => le_antisymm h1 h2⟩
  rw [List.max?_eq_some_iff (fun a => le_refl a) (fun a b => by rcases le_total a b with h | h <;> simp [h])
    (fun a b c => max_le_iff)]
  exact ⟨exactFootprint_mem axes hpos, le_exactFootprint axes hs⟩

theorem wrapInt64_eq_self {v : Int} (h0 : -9223372036854775808 ≤ v)
    (h1 : v ≤ 9223372036854775807) : wrapInt64 v = v := by
  unfold wrapInt64; omega

theorem mulInt64_pred_size (n : Nat) (s : Int) (hn : 1 ≤ n) (hs : 0 ≤ s)
    (h : ((n : Int) - 1) * s ≤ 9223372036854775807) :
    mulInt64 (subInt64 (n : Int) 1) s = ((n : Int) - 1) * s := by
  unfold mulInt64 subInt64
  rcases eq_or_lt_of_le hs with h0 | hpos
  · rw [← h0]; simp [wrapInt64]
  · have hn1 : (0 : Int) ≤ (n : Int) - 1 := by omega
    have hle : (n : Int) - 1 ≤ ((n : Int) - 1) * s := by nlinarith
    rw [wrapInt64_eq_self (v := (n : Int) - 1) (by omega) (by omega)]
    exact wrapInt64_eq_self (by nlinarith) h

theorem footprint_eq_exactFootprint {α : Type} (x : Tensor α) (hdim : x.dim = 4)
    (hpos : ∀ a ∈ x.axes, 1 ≤ a.size) (hs : ∀ a ∈ x.axes, 0 ≤ a.stride)
    (hfit : exactFootprint x.axes ≤ 2 ^ 63 - 1) :
    x.footprint = exactFootprint x.axes := by
  obtain ⟨dev, dt, axes, fmt, st⟩ := x
  simp only [Tensor.dim] at hdim
  match axes, hdim with
  | [a0, a1, a2, a3], _ =>
    simp only [List.mem_cons, List.mem_singleton, forall_eq_or_imp, forall_eq, List.not_mem_nil,
      false_implies, implies_true, and_true] at hpos hs
    obtain ⟨p0, p1, p2, p3⟩ := hpos
    obtain ⟨s0, s1, s2, s3⟩ := hs
    simp only [exactFootprint] at hfit ⊢
    have t0 : 0 ≤ ((a0.size : Int) - 1) * a0.stride := mul_nonneg (by omega) s0
    have t1 : 0 ≤ ((a1.size : Int) - 1) * a1.stride := mul_nonneg (by omega) s1
    have t2 : 0 ≤ ((a2.size : Int) - 1) * a2.stride := mul_nonneg (by omega) s2
    have t3 : 0 ≤ ((a3.size : Int) - 1) * a3.stride := mul_nonneg (by omega) s3
    simp only [Tensor.footprint, Tensor.size, Tensor.stride, List.getD_cons_zero,
      List.getD_cons_succ]
    rw [mulInt64_pred_size a0.size a0.stride p0 s0 (by omega),
      mulInt64_pred_size a1.size a1.stride p1 s1 (by omega),
      mulInt64_pred_size a2.size a2.stride p2 s2 (by omega),
      mulInt64_pred_size a3.size a3.stride p3 s3 (by omega)]
    unfold addInt64
    rw [wrapInt64_eq_self
      (v := ((a0.size : Int) - 1) * a0.stride + ((a1.size : Int) - 1) * a1.stride)
      (by omega) (by omega)]
    rw [wrapInt64_eq_self
      (v := ((a0.size : Int) - 1) * a0.stride + ((a1.size : Int) - 1) * a1.stride
        + ((a2.size : Int) - 1) * a2.stride)
      (by omega) (by omega)]
    rw [wrapInt64_eq_self (by omega) (by omega)]
    omega

theorem wrapInt_eq_self {v : Int} (h0 : -2147483648 ≤ v) (h1 : v ≤ 2147483647) :
    wrapInt v = v := by
  unfold wrapInt; omega

theorem wrapInt_range (v : Int) : -2147483648 ≤ wrapInt v ∧ wrapInt v ≤ 2147483647 := by
  unfold wrapInt; omega

theorem ceilDiv_eq (a b : Int) (hb : 1 ≤ b) : ceilDiv a b = (a - 1) / b + 1 := by
  unfold ceilDiv
  rw [Int.ceil_eq_iff]
  have hbq : (0 : ℚ) < (b : ℚ) := by exact_mod_cast (by omega : (0 : Int) < b)
  have h1 : (a - 1) / b * b ≤ a - 1 := Int.ediv_mul_le (a - 1) (by omega)
  have h2 : a - 1 < ((a - 1) / b + 1) * b := Int.lt_ediv_add_one_mul_self (a - 1) (by omega)
  constructor
  · rw [lt_div_iff₀ hbq]
    have : ((a - 1) / b * b : Int) < a := by omega
    have h3 : (((a - 1) / b * b : Int) : ℚ) < (a : ℚ) := by exact_mod_cast this
    push_cast at h3 ⊢
    linarith
  · rw [div_le_iff₀ hbq]
    have : a ≤ ((a - 1) / b + 1) * b := by omega
    have h3 : (a : ℚ) ≤ ((((a - 1) / b + 1) * b : Int) : ℚ) := by exact_mod_cast this
    push_cast at h3 ⊢
    linarith

/-- The idiom `(a - 1) / b + 1` in `int` is the ceiling of `a / b` for positive operands. -/
theorem ceilIdiom_eq (a b : Int) (ha : 1 ≤ a) (ha' : a ≤ 2147483647) (hb : 1 ≤ b) :
    addInt (divInt (subInt a 1) b) 1 = ceilDiv a b := by
  rw [ceilDiv_eq a b hb]
  unfold addInt divInt subInt
  rw [wrapInt_eq_self (v := a - 1) (by omega) (by omega)]
  rw [Int.tdiv_eq_ediv (by omega) (by omega)]
  have h0 : 0 ≤ (a - 1) / b := Int.ediv_nonneg (by omega) (by omega)
  have h1 : (a - 1) / b ≤ a - 1 := Int.ediv_le_self _ (by omega)
  rw [wrapInt_eq_self (v := (a - 1) / b) (by omega) (by omega)]
  exact wrapInt_eq_self (by omega) (by omega)

theorem ceilDiv_bounds (a b : Int) (ha : 1 ≤ a) (hb : 1 ≤ b) :
    1 ≤ ceilDiv a b ∧ ceilDiv a b ≤ a ∧ a ≤ ceilDiv a b * b ∧ (ceilDiv a b - 1) * b < a := by
  rw [ceilDiv_eq a b hb]
  have h0 : 0 ≤ (a - 1) / b := Int.ediv_nonneg (by omega) (by omega)
  have h1 : (a - 1) / b ≤ a - 1 := Int.ediv_le_self _ (by omega)
  have h2 : (a - 1) / b * b ≤ a - 1 := Int.ediv_mul_le (a - 1) (by omega)
  have h3 : a - 1 < ((a - 1) / b + 1) * b := Int.lt_ediv_add_one_mul_self (a - 1) (by omega)
  refine ⟨by omega, by omega, by omega, ?_⟩
  have : ((a - 1) / b + 1 - 1) * b = (a - 1) / b * b := by ring
  omega

theorem bind_eq_ok {ε β γ : Type} {m : Except ε β} {k : β → Except ε γ} {r : γ}
    (h : (m >>= k) = .ok r) : ∃ a, m = .ok a ∧ k a = .ok r := by
  cases m with
  | error e => cases h
  | ok a => exact ⟨a, rfl, h⟩

theorem TORCH_CHECK_bind_eq_ok {γ : Type} {c : Bool} {e : Failure}
    {k : Unit → Except Failure γ} {r : γ}
    (h : (TORCH_CHECK c e >>= k) = .ok r) : c = true ∧ k () = .ok r := by
  cases c with
  | false => cases h
  | true => exact ⟨rfl, h⟩

theorem trapOnZero_bind_eq_ok {γ : Type} {d : Int} {k : Unit → Except Failure γ} {r : γ}
    (h : (trapOnZero d >>= k) = .ok r) : d ≠ 0 ∧ k () = .ok r := by
  unfold trapOnZero at h
  by_cases hd : d = 0
  · rw [if_pos hd] at h
    cases h
  · rw [if_neg hd] at h
    exact ⟨hd, h⟩

theorem upfirdn2d_body_eq_ok {α G : Type}
    {choose : ScalarType → upfirdn2d_kernel_params G → upfirdn2d_kernel_spec}
    {alloc : Nat → Option (List α)}
    {x f : Tensor α} {upx upy downx downy padx0 padx1 pady0 pady1 : Int} {flip : Bool}
    {gain : G} {r : Launch α G}
    (h : upfirdn2d_body choose alloc x f upx upy downx downy padx0 padx1 pady0 pady1 flip gain
      = .ok r) :
    validateArguments x f upx upy downx downy = .ok () ∧
    1 ≤ outExtent (x.size 3) upx padx0 padx1 (f.size 1) downx ∧
    1 ≤ outExtent (x.size 2) upy pady0 pady1 (f.size 0) downy ∧
    ∃ fresh,
      alloc ((x.size 0).toNat * (x.size 1).toNat
          * (outExtent (x.size 2) upy pady0 pady1 (f.size 0) downy).toNat
          * (outExtent (x.size 3) upx padx0 padx1 (f.size 1) downx).toNat) = some fresh ∧
      r.y = torch_empty x (x.size 0) (x.size 1)
          (outExtent (x.size 2) upy pady0 pady1 (f.size 0) downy)
          (outExtent (x.size 3) upx padx0 padx1 (f.size 1) downx) fresh ∧
      (r.y.numel : Int) ≤ INT_MAX ∧
      r.y.footprint ≤ INT_MAX ∧
      isFloatingOrHalf x.dtype = true ∧
      r.spec = choose x.dtype (initParams x f r.y upx upy downx downy padx0 pady0 flip gain) ∧
      r.p = setLoopingOptions (initParams x f r.y upx upy downx downy padx0 pady0 flip gain)
          r.spec ∧
      r.blockSize = computeBlockSize r.spec ∧
      r.gridSize = computeGridSize r.p r.spec := by
  unfold upfirdn2d_body at h
  obtain ⟨u, hv, h⟩ := bind_eq_ok h
  obtain ⟨hout, h⟩ := TORCH_CHECK_bind_eq_ok h
  simp only [Bool.and_eq_true, decide_eq_true_eq, ge_iff_le] at hout
  refine ⟨hv, hout.1, hout.2, ?_⟩
  generalize outExtent (x.size 3) upx padx0 padx1 (f.size 1) downx = outW at h ⊢
  generalize outExtent (x.size 2) upy pady0 pady1 (f.size 0) downy = outH at h ⊢
  dsimp only at h
  cases ha : alloc ((x.size 0).toNat * (x.size 1).toNat * outH.toNat * outW.toNat) with
  | none =>
    rw [ha] at h
    cases h
  | some fresh =>
    rw [ha] at h
    dsimp only at h
    refine ⟨fresh, rfl, ?_⟩
    obtain ⟨h1, h⟩ := TORCH_CHECK_bind_eq_ok h
    obtain ⟨h2, h⟩ := TORCH_CHECK_bind_eq_ok h
    obtain ⟨h3, h⟩ := TORCH_CHECK_bind_eq_ok h
    obtain ⟨_, h⟩ := trapOnZero_bind_eq_ok h
    obtain ⟨_, h⟩ := trapOnZero_bind_eq_ok h
    obtain ⟨_, h⟩ := trapOnZero_bind_eq_ok h
    obtain ⟨_, h⟩ := trapOnZero_bind_eq_ok h
    simp only [decide_eq_true_eq] at h1 h2
    cases h
    exact ⟨rfl, h1, h2, h3, rfl, rfl, rfl, rfl⟩

theorem input_axes_of_valid {α : Type} {x f : Tensor α} {upx upy downx downy : Int}
    (h : CheckedConditions x f upx upy downx downy) :
    ∃ a0 a1 a2 a3 : Axis, x.axes = [a0, a1, a2, a3] ∧
      1 ≤ a0.size ∧ 1 ≤ a1.size ∧ 1 ≤ a2.size ∧ 1 ≤ a3.size ∧
      a0.size * a1.size * a2.size * a3.size ≤ 2147483647 := by
  obtain ⟨_, _, ⟨hpos, hle⟩, _, hdim, _⟩ := h
  obtain ⟨dev, dt, axes, fmt, st⟩ := x
  simp only [Tensor.dim] at hdim
  match axes, hdim with
  | [a0, a1, a2, a3], _ =>
    refine ⟨a0, a1, a2, a3, rfl, ?_⟩
    simp only [Tensor.numel, List.map_cons, List.map_nil, List.prod_cons, List.prod_nil,
      mul_one] at hpos hle
    have hle' : a0.size * (a1.size * (a2.size * a3.size)) ≤ 2147483647 := by
      norm_num at hle; exact_mod_cast hle
    have p0 : 0 < a0.size := by
      rcases Nat.eq_zero_or_pos a0.size with h0 | h0
      · rw [h0] at hpos; simp at hpos
      · exact h0
    have p123 : 0 < a1.size * (a2.size * a3.size) := by
      rcases Nat.eq_zero_or_pos (a1.size * (a2.size * a3.size)) with h0 | h0
      · rw [h0] at hpos; simp at hpos
      · exact h0
    have p1 : 0 < a1.size := by
      rcases Nat.eq_zero_or_pos a1.size with h0 | h0
      · rw [h0] at p123; simp at p123
      · exact h0
    have p23 : 0 < a2.size * a3.size := by
      rcases Nat.eq_zero_or_pos (a2.size * a3.size) with h0 | h0
      · rw [h0] at p123; simp at p123
      · exact h0
    have p2 : 0 < a2.size := by
      rcases Nat.eq_zero_or_pos a2.size with h0 | h0
      · rw [h0] at p23; simp at p23
      · exact h0
    have p3 : 0 < a3.size := by
      rcases Nat.eq_zero_or_pos a3.size with h0 | h0
      · rw [h0] at p23; simp at p23
      · exact h0
    refine ⟨p0, p1, p2, p3, ?_⟩
    calc a0.size * a1.size * a2.size * a3.size
        = a0.size * (a1.size * (a2.size * a3.size)) := by ring
      _ ≤ 2147483647 := hle'

theorem filter_axes_of_valid {α : Type} {x f : Tensor α} {upx upy downx downy : Int}
    (h : CheckedConditions x f upx upy downx downy) :
    ∃ b0 b1 : Axis, f.axes = [b0, b1] ∧ 1 ≤ b0.size ∧ 1 ≤ b1.size ∧
      b0.size * b1.size ≤ 2147483647 := by
  obtain ⟨_, _, _, ⟨hpos, hle⟩, _, hdim, _⟩ := h
  obtain ⟨dev, dt, axes, fmt, st⟩ := f
  simp only [Tensor.dim] at hdim
  match axes, hdim with
  | [b0, b1], _ =>
    refine ⟨b0, b1, rfl, ?_⟩
    simp only [Tensor.numel, List.map_cons, List.map_nil, List.prod_cons, List.prod_nil,
      mul_one] at hpos hle
    have hle' : b0.size * b1.size ≤ 2147483647 := by
      norm_num at hle; exact_mod_cast hle
    have p0 : 0 < b0.size := by
      rcases Nat.eq_zero_or_pos b0.size with h0 | h0
      · rw [h0] at hpos; simp at hpos
      · exact h0
    have p1 : 0 < b1.size := by
      rcases Nat.eq_zero_or_pos b1.size with h0 | h0
      · rw [h0] at hpos; simp at hpos
      · exact h0
    exact ⟨p0, p1, hle'⟩

/-- Bounds that a product of positive naturals gives its factors. -/
theorem le_of_prod4_le {a b c d m : Nat} (ha : 1 ≤ a) (hb : 1 ≤ b) (hc : 1 ≤ c) (hd : 1 ≤ d)
    (h : a * b * c * d ≤ m) : a * b ≤ m ∧ a ≤ m ∧ b ≤ m ∧ c ≤ m ∧ d ≤ m := by
  have hab : a * b ≤ a * b * c * d := by
    calc a * b = a * b * 1 * 1 := by ring
      _ ≤ a * b * c * d := by gcongr
  have h1 : a ≤ a * b := Nat.le_mul_of_pos_right a hb
  have h2 : b ≤ a * b := Nat.le_mul_of_pos_left b ha
  have h3 : c ≤ a * b * c * d := by
    calc c = 1 * 1 * c * 1 := by ring
      _ ≤ a * b * c * d := by gcongr
  have h4 : d ≤ a * b * c * d := by
    calc d = 1 * 1 * 1 * d := by ring
      _ ≤ a * b * c * d := by gcongr
  omega

theorem upfirdn2d_storage_eq_fresh {α G : Type}
    {choose : ScalarType → upfirdn2d_kernel_params G → upfirdn2d_kernel_spec}
    {alloc : Nat → Option (List α)}
    {x f : Tensor α} {upx upy downx downy padx0 padx1 pady0 pady1 : Int} {flip : Bool}
    {gain : G} {r : Launch α G}
    (h : upfirdn2d_body choose alloc x f upx upy downx downy padx0 padx1 pady0 pady1 flip gain
      = .ok r) :
    alloc ((x.size 0).toNat * (x.size 1).toNat
        * (outExtent (x.size 2) upy pady0 pady1 (f.size 0) downy).toNat
        * (outExtent (x.size 3) upx padx0 padx1 (f.size 1) downx).toNat) = some r.y.storage := by
  obtain ⟨_, _, _, fresh, hf, hy, _⟩ := upfirdn2d_body_eq_ok h
  rw [hf, hy]
  rfl

theorem wrapInt_natCast {n : Nat} (h : n ≤ 2147483647) : wrapInt (n : Int) = (n : Int) :=
  wrapInt_eq_self (by omega) (by omega)

theorem mulInt_natCast {n c : Nat} (h : n * c ≤ 2147483647) :
    mulInt (n : Int) (c : Int) = (n : Int) * (c : Int) := by
  unfold mulInt
  have h1 : ((n * c : Nat) : Int) ≤ 2147483647 := by exact_mod_cast h
  have h0 : (0 : Int) ≤ ((n * c : Nat) : Int) := Int.natCast_nonneg _
  rw [Nat.cast_mul] at h0 h1
  exact wrapInt_eq_self (le_trans (by norm_num) h0) h1

theorem major_minor_split (n c : Nat) (s : Int) (hn : 1 ≤ n) (hc : 1 ≤ c)
    (hnc : n * c ≤ 2147483647)
    (hs : (-2147483648 ≤ s ∧ s ≤ 2147483647) ∨ c = 1) :
    (if wrapInt s = 1 then wrapInt (c : Int) else 1) = (if s = 1 then (c : Int) else 1) ∧
    (if wrapInt s = 1 then wrapInt (n : Int) else mulInt (wrapInt (n : Int)) (wrapInt (c : Int)))
      = ((n : Int) * (c : Int)) / (if wrapInt s = 1 then wrapInt (c : Int) else 1) ∧
    (if wrapInt s = 1 then wrapInt (n : Int) else mulInt (wrapInt (n : Int)) (wrapInt (c : Int)))
      * (if wrapInt s = 1 then wrapInt (c : Int) else 1) = (n : Int) * (c : Int) ∧
    1 ≤ (if wrapInt s = 1 then wrapInt (n : Int)
      else mulInt (wrapInt (n : Int)) (wrapInt (c : Int))) ∧
    1 ≤ (if wrapInt s = 1 then wrapInt (c : Int) else 1) := by
  have hn' : n ≤ 2147483647 := le_trans (Nat.le_mul_of_pos_right n hc) hnc
  have hc' : c ≤ 2147483647 := le_trans (Nat.le_mul_of_pos_left c hn) hnc
  have q0 : (1 : Int) ≤ (n : Int) := by exact_mod_cast hn
  have q1 : (1 : Int) ≤ (c : Int) := by exact_mod_cast hc
  have q1' : (c : Int) ≠ 0 := by omega
  have hab1 : (1 : Int) ≤ (n : Int) * (c : Int) := by
    have h1 : 1 ≤ n * c := Nat.one_le_iff_ne_zero.mpr (Nat.mul_ne_zero (by omega) (by omega))
    exact_mod_cast h1
  have hcond : (wrapInt s = 1 ↔ s = 1) ∨ (c : Int) = 1 := by
    rcases hs with ⟨l, u⟩ | h1
    · left; rw [wrapInt_eq_self l u]
    · right; exact_mod_cast h1
  rw [wrapInt_natCast hn', wrapInt_natCast hc', mulInt_natCast hnc]
  by_cases hw : wrapInt s = 1
  · rw [if_pos hw, if_pos hw]
    have hx : (if s = 1 then (c : Int) else 1) = (c : Int) := by
      rcases hcond with hc2 | hc2
      · rw [if_pos (hc2.mp hw)]
      · split
        · rfl
        · exact hc2.symm
    rw [hx]
    exact ⟨rfl, (Int.mul_ediv_cancel _ q1').symm, rfl, q0, q1⟩
  · rw [if_neg hw, if_neg hw]
    have hx : (if s = 1 then (c : Int) else 1) = 1 := by
      rcases hcond with hc2 | hc2
      · rw [if_neg (fun hx1 => hw (hc2.mpr hx1))]
      · split
        · exact hc2
        · rfl
    rw [hx]
    exact ⟨rfl, (Int.ediv_one _).symm, mul_one _, hab1, le_refl _⟩

theorem looping_values (S m l : Int) (hS : 1 ≤ S) (hS' : S ≤ 2147483647) (hm : 1 ≤ m)
    (hm' : m ≤ 2147483647) (hl : 1 ≤ l) :
    addInt (divInt (subInt S 1) 16384) 1 = ceilDiv S 16384 ∧
    addInt (divInt (subInt m 1) l) 1 = ceilDiv m l ∧
    addInt (divInt (subInt S 1) (addInt (divInt (subInt S 1) 16384) 1)) 1
      = ceilDiv S (ceilDiv S 16384) := by
  have h1 := ceilIdiom_eq S 16384 hS hS' (by norm_num)
  have h2 := ceilIdiom_eq m l hm hm' hl
  have hL := (ceilDiv_bounds S 16384 hS (by norm_num)).1
  have h3 := ceilIdiom_eq S (ceilDiv S 16384) hS hS' hL
  refine ⟨h1, h2, ?_⟩
  rw [h1]
  exact h3

theorem launchMajor_bounds (S : Int) (hS : 1 ≤ S) :
    1 ≤ ceilDiv S (ceilDiv S 16384) ∧ ceilDiv S (ceilDiv S 16384) ≤ 16384 := by
  obtain ⟨hL1, _, hL3, _⟩ := ceilDiv_bounds S 16384 hS (by norm_num)
  obtain ⟨hK1, _, _, hK4⟩ := ceilDiv_bounds S (ceilDiv S 16384) hS hL1
  refine ⟨hK1, ?_⟩
  generalize ceilDiv S (ceilDiv S 16384) = K at hK1 hK4 ⊢
  generalize ceilDiv S 16384 = L at hL1 hL3 hK4
  have h5 : (K - 1) * L < 16384 * L := by
    calc (K - 1) * L < S := hK4
      _ ≤ L * 16384 := hL3
      _ = 16384 * L := mul_comm _ _
  have h6 : K - 1 < 16384 := lt_of_mul_lt_mul_right h5 (by omega)
  omega

theorem outExtent_range (inSize up pad0 pad1 filterSize down : Int) :
    -2147483648 ≤ outExtent inSize up pad0 pad1 filterSize down ∧
    outExtent inSize up pad0 pad1 filterSize down ≤ 2147483647 := by
  unfold outExtent divInt
  exact wrapInt_range _

theorem torch_empty_numel {α : Type} (x : Tensor α) (n c h w : Nat) (fresh : List α) :
    (torch_empty x (n : Int) (c : Int) (h : Int) (w : Int) fresh).numel = n * c * h * w := by
  simp only [torch_empty, Tensor.numel, emptyAxes, Int.toNat_ofNat]
  cases x.memoryFormat <;>
    simp [emptyStrides, List.zipWith, mul_assoc]

theorem torch_empty_size {α : Type} (x : Tensor α) (n c h w : Nat) (fresh : List α) :
    (torch_empty x (n : Int) (c : Int) (h : Int) (w : Int) fresh).size 0 = (n : Int) ∧
    (torch_empty x (n : Int) (c : Int) (h : Int) (w : Int) fresh).size 1 = (c : Int) ∧
    (torch_empty x (n : Int) (c : Int) (h : Int) (w : Int) fresh).size 2 = (h : Int) ∧
    (torch_empty x (n : Int) (c : Int) (h : Int) (w : Int) fresh).size 3 = (w : Int) ∧
    (torch_empty x (n : Int) (c : Int) (h : Int) (w : Int) fresh).sizes = [n, c, h, w] := by
  simp only [torch_empty, Tensor.size, Tensor.sizes, emptyAxes, Int.toNat_ofNat]
  cases x.memoryFormat <;>
    simp [emptyStrides, List.zipWith]

theorem accepted_geometry {α G : Type}
    {choose : ScalarType → upfirdn2d_kernel_params G → upfirdn2d_kernel_spec}
    {alloc : Nat → Option (List α)}
    {x f : Tensor α} {upx upy downx downy padx0 padx1 pady0 pady1 : Int} {flip : Bool}
    {gain : G} {r : Launch α G}
    (h : upfirdn2d_body choose alloc x f upx upy downx downy padx0 padx1 pady0 pady1 flip gain
      = .ok r) :
    ∃ N C H W : Nat, 1 ≤ N ∧ 1 ≤ C ∧ 1 ≤ H ∧ 1 ≤ W ∧ N * C * H * W ≤ 2147483647 ∧
      x.size 0 = (N : Int) ∧ x.size 1 = (C : Int) ∧
      outExtent (x.size 2) upy pady0 pady1 (f.size 0) downy = (H : Int) ∧
      outExtent (x.size 3) upx padx0 padx1 (f.size 1) downx = (W : Int) ∧
      r.y.sizes = [N, C, H, W] ∧
      r.p.outSize = ⟨(W : Int), (H : Int), (C : Int), (N : Int)⟩ ∧
      ((r.p.sizeMajor = (N : Int) ∧ r.p.sizeMinor = (C : Int)) ∨
        (r.p.sizeMajor = (N : Int) * (C : Int) ∧ r.p.sizeMinor = 1)) ∧
      r.p.loopMajor = addInt (divInt (subInt r.p.sizeMajor 1) 16384) 1 ∧
      r.p.loopMinor = r.spec.loopMinor ∧
      r.p.loopX = r.spec.loopX ∧
      r.p.launchMinor = addInt (divInt (subInt r.p.sizeMinor 1) r.spec.loopMinor) 1 ∧
      r.p.launchMajor = addInt (divInt (subInt r.p.sizeMajor 1) r.p.loopMajor) 1 := by
  obtain ⟨hv, hoW, hoH, fresh, _, hy, hnum, _, _, _, hp, _, _⟩ := upfirdn2d_body_eq_ok h
  have hval := (validateArguments_eq_ok_iff x f upx upy downx downy).mp hv
  obtain ⟨a0, a1, a2, a3, hax, p0, p1, p2, p3, hprod⟩ := input_axes_of_valid hval
  obtain ⟨hab, hn, hc, _, _⟩ := le_of_prod4_le p0 p1 p2 p3 hprod
  have e0 : x.size 0 = (a0.size : Int) := by simp [Tensor.size, hax]
  have e1 : x.size 1 = (a1.size : Int) := by simp [Tensor.size, hax]
  obtain ⟨_, hWu⟩ := outExtent_range (x.size 3) upx padx0 padx1 (f.size 1) downx
  obtain ⟨_, hHu⟩ := outExtent_range (x.size 2) upy pady0 pady1 (f.size 0) downy
  generalize outExtent (x.size 3) upx padx0 padx1 (f.size 1) downx = oW at hoW hy hWu
  generalize outExtent (x.size 2) upy pady0 pady1 (f.size 0) downy = oH at hoH hy hHu
  obtain ⟨W, rfl⟩ := Int.eq_ofNat_of_zero_le (le_trans zero_le_one hoW)
  obtain ⟨H, rfl⟩ := Int.eq_ofNat_of_zero_le (le_trans zero_le_one hoH)
  have hW1 : 1 ≤ W := by exact_mod_cast hoW
  have hH1 : 1 ≤ H := by exact_mod_cast hoH
  have hW2 : W ≤ 2147483647 := by exact_mod_cast hWu
  have hH2 : H ≤ 2147483647 := by exact_mod_cast hHu
  rw [e0, e1] at hy
  obtain ⟨s0, s1, s2, s3, ss⟩ := torch_empty_size x a0.size a1.size H W fresh
  rw [← hy] at s0 s1 s2 s3 ss
  have hnumel : a0.size * a1.size * H * W ≤ 2147483647 := by
    have := torch_empty_numel x a0.size a1.size H W fresh
    rw [← hy] at this
    rw [this] at hnum
    unfold INT_MAX at hnum
    exact_mod_cast hnum
  refine ⟨a0.size, a1.size, H, W, p0, p1, hH1, hW1, hnumel, e0, e1, rfl, rfl, ss, ?_, ?_,
    ?_, ?_, ?_, ?_, ?_⟩
  · rw [hp]
    simp only [setLoopingOptions, initParams, s0, s1, s2, s3]
    rw [wrapInt_natCast hW2, wrapInt_natCast hH2, wrapInt_natCast hc, wrapInt_natCast hn]
  · have hM : r.p.sizeMajor =
        if wrapInt (x.stride 1) = 1 then wrapInt (a0.size : Int)
        else mulInt (wrapInt (a0.size : Int)) (wrapInt (a1.size : Int)) := by
      rw [hp, ← e0, ← e1]; rfl
    have hm : r.p.sizeMinor =
        if wrapInt (x.stride 1) = 1 then wrapInt (a1.size : Int) else 1 := by
      rw [hp, ← e1]; rfl
    rw [hM, hm, wrapInt_natCast hn, wrapInt_natCast hc, mulInt_natCast hab]
    by_cases hw : wrapInt (x.stride 1) = 1
    · left; rw [if_pos hw, if_pos hw]; exact ⟨rfl, rfl⟩
    · right; rw [if_neg hw, if_neg hw]; exact ⟨rfl, rfl⟩
  · rw [hp]; rfl
  · rw [hp]; rfl
  · rw [hp]; rfl
  · rw [hp]; rfl
  · rw [hp]; rfl
theorem toSize_of_nonneg {v : Int} (h0 : 0 ≤ v) (h1 : v ≤ 2147483647) :
    ((toSize v : Nat) : Int) = v := by
  unfold toSize
  rw [Int.emod_eq_of_lt h0 (lt_of_le_of_lt h1 (by norm_num))]
  exact Int.toNat_of_nonneg h0

theorem toSize_natCast (n : Nat) (h : n ≤ 2147483647) : toSize (n : Int) = n := by
  have := toSize_of_nonneg (Int.natCast_nonneg n) (by exact_mod_cast h)
  exact_mod_cast this

theorem subInt_natCast_one {n : Nat} (h1 : 1 ≤ n) (h2 : n ≤ 2147483647) :
    subInt (n : Int) 1 = ((n - 1 : Nat) : Int) := by
  unfold subInt
  rw [wrapInt_eq_self (by omega) (by omega)]
  omega

theorem gridLarge_values (W H lx lm : Nat) (hW : 1 ≤ W) (hW' : W ≤ 2147483647)
    (hH : 1 ≤ H) (hH' : H ≤ 2147483647) (hlx : 1 ≤ lx) (hlx' : lx ≤ 2147483647)
    (hlm' : lm ≤ 2147483647) :
    ((addSize (divSize (toSize (subInt (W : Int) 1)) (mulSize 32 (toSize (lx : Int)))) 1 : Nat)
        : Int) = ceilDiv (W : Int) (32 * (lx : Int)) ∧
    ((mulSize (addSize (divSize (toSize (subInt (H : Int) 1)) 4) 1) (toSize (lm : Int)) : Nat)
        : Int) = ceilDiv (H : Int) 4 * (lm : Int) := by
  rw [subInt_natCast_one hW hW', subInt_natCast_one hH hH', toSize_natCast (W - 1) (by omega),
    toSize_natCast (H - 1) (by omega), toSize_natCast lx hlx', toSize_natCast lm hlm']
  rw [ceilDiv_eq (W : Int) (32 * (lx : Int)) (by omega), ceilDiv_eq (H : Int) 4 (by norm_num)]
  unfold addSize mulSize divSize
  have d1 : (W - 1) / (32 * lx % 18446744073709551616) ≤ W - 1 := Nat.div_le_self _ _
  have d2 : (H - 1) / 4 ≤ H - 1 := Nat.div_le_self _ _
  have m1 : 32 * lx % 18446744073709551616 = 32 * lx := Nat.mod_eq_of_lt (by omega)
  have m2 : ((W - 1) / (32 * lx % 18446744073709551616) + 1) % 18446744073709551616
      = (W - 1) / (32 * lx % 18446744073709551616) + 1 := Nat.mod_eq_of_lt (by omega)
  have m3 : ((H - 1) / 4 + 1) % 18446744073709551616 = (H - 1) / 4 + 1 :=
    Nat.mod_eq_of_lt (by omega)
  have hb : ((H - 1) / 4 + 1) * lm ≤ 2147483647 * 2147483647 :=
    Nat.mul_le_mul (by omega) hlm'
  have m4 : ((H - 1) / 4 + 1) * lm % 18446744073709551616 = ((H - 1) / 4 + 1) * lm :=
    Nat.mod_eq_of_lt (lt_of_le_of_lt hb (by norm_num))
  rw [m2, m3, m4, m1]
  have c1 : ((W - 1 : Nat) : Int) = (W : Int) - 1 := by omega
  have c2 : ((H - 1 : Nat) : Int) = (H : Int) - 1 := by omega
  constructor
  · push_cast
    rw [c1]
  · push_cast
    rw [c2]

theorem gridSmall_values (W H tw th lx lm : Int) (hW : 1 ≤ W) (hW' : W ≤ 2147483647)
    (hH : 1 ≤ H) (hH' : H ≤ 2147483647) (htw : 1 ≤ tw) (hth : 1 ≤ th) (hlx : 1 ≤ lx)
    (hprod : tw * lx ≤ 2147483647) (hlm : 0 ≤ lm) (hrows : ceilDiv H th * lm ≤ 2147483647) :
    ((toSize (addInt (divInt (subInt W 1) (mulInt tw lx)) 1) : Nat) : Int)
      = ceilDiv W (tw * lx) ∧
    ((toSize (mulInt (addInt (divInt (subInt H 1) th) 1) lm) : Nat) : Int)
      = ceilDiv H th * lm := by
  have hp1 : 1 ≤ tw * lx := by
    have := mul_le_mul htw hlx zero_le_one (le_trans zero_le_one htw)
    simpa using this
  have e1 : mulInt tw lx = tw * lx := by
    unfold mulInt
    exact wrapInt_eq_self (le_trans (by norm_num) hp1) hprod
  obtain ⟨k1, k2, _, _⟩ := ceilDiv_bounds W (tw * lx) hW hp1
  obtain ⟨j1, _, _, _⟩ := ceilDiv_bounds H th hH hth
  have hnn : 0 ≤ ceilDiv H th * lm := mul_nonneg (le_trans zero_le_one j1) hlm
  rw [e1, ceilIdiom_eq W (tw * lx) hW hW' hp1, ceilIdiom_eq H th hH hH' hth]
  have e2 : mulInt (ceilDiv H th) lm = ceilDiv H th * lm := by
    unfold mulInt
    exact wrapInt_eq_self (le_trans (by norm_num) hnn) hrows
  rw [e2]
  exact ⟨toSize_of_nonneg (le_trans zero_le_one k1) (le_trans k2 hW'),
    toSize_of_nonneg hnn hrows⟩
theorem launch_values_of_accepted {α G : Type}
    {choose : ScalarType → upfirdn2d_kernel_params G → upfirdn2d_kernel_spec}
    {alloc : Nat → Option (List α)}
    {x f : Tensor α} {upx upy downx downy padx0 padx1 pady0 pady1 : Int} {flip : Bool}
    {gain : G} {r : Launch α G}
    (h : upfirdn2d_body choose alloc x f upx upy downx downy padx0 padx1 pady0 pady1 flip gain
      = .ok r)
    (hlm : 1 ≤ r.spec.loopMinor) (hlx : 1 ≤ r.spec.loopX) (hlx' : r.spec.loopX ≤ INT_MAX)
    (ht : r.spec.tileOutW < 0 ∨
      (1 ≤ r.spec.tileOutW ∧ 1 ≤ r.spec.tileOutH ∧
        r.spec.tileOutW * r.spec.loopX ≤ INT_MAX)) :
    (1 ≤ r.p.sizeMajor ∧ 1 ≤ r.p.sizeMinor ∧ 1 ≤ r.p.outSize.x ∧ 1 ≤ r.p.outSize.y) ∧
    (r.p.loopMajor = ceilDiv r.p.sizeMajor 16384 ∧
      r.p.launchMajor = ceilDiv r.p.sizeMajor r.p.loopMajor ∧
      r.p.launchMinor = ceilDiv r.p.sizeMinor r.p.loopMinor) ∧
    ((r.gridSize.r0 : Int) = r.p.launchMajor ∧
      (r.gridSize.r1 : Int) = ceilDiv r.p.outSize.x (gridUnitW r.spec * r.p.loopX) ∧
      (r.gridSize.r2 : Int) = ceilDiv r.p.outSize.y (gridUnitH r.spec) * r.p.launchMinor) := by
  obtain ⟨N, C, H, W, hN, hC, hH, hW, hnum, _, _, _, _, _, hout, hsz, hLM, hLm, hLX, hlaunchm,
    hlaunchM⟩ := accepted_geometry h
  obtain ⟨_, _, _, _, _, _, _, _, _, _, _, _, hgrid⟩ := upfirdn2d_body_eq_ok h
  unfold INT_MAX at hlx' ht
  -- plain bounds on the extents
  have hNC : N * C ≤ 2147483647 := (le_of_prod4_le hN hC hH hW hnum).1
  have hN' : N ≤ 2147483647 := (le_of_prod4_le hN hC hH hW hnum).2.1
  have hC' : C ≤ 2147483647 := (le_of_prod4_le hN hC hH hW hnum).2.2.1
  have hH' : H ≤ 2147483647 := (le_of_prod4_le hN hC hH hW hnum).2.2.2.1
  have hW' : W ≤ 2147483647 := (le_of_prod4_le hN hC hH hW hnum).2.2.2.2
  have hCH : C * H ≤ 2147483647 := by
    have h1 : C * H ≤ N * C * H * W := by
      calc C * H = 1 * C * H * 1 := by ring
        _ ≤ N * C * H * W := by gcongr
    exact le_trans h1 hnum
  have zN : (1 : Int) ≤ (N : Int) := by exact_mod_cast hN
  have zC : (1 : Int) ≤ (C : Int) := by exact_mod_cast hC
  have zH : (1 : Int) ≤ (H : Int) := by exact_mod_cast hH
  have zW : (1 : Int) ≤ (W : Int) := by exact_mod_cast hW
  have zN' : (N : Int) ≤ 2147483647 := by exact_mod_cast hN'
  have zC' : (C : Int) ≤ 2147483647 := by exact_mod_cast hC'
  have zH' : (H : Int) ≤ 2147483647 := by exact_mod_cast hH'
  have zW' : (W : Int) ≤ 2147483647 := by exact_mod_cast hW'
  have zNC : (N : Int) * (C : Int) ≤ 2147483647 := by exact_mod_cast hNC
  have zCH : (C : Int) * (H : Int) ≤ 2147483647 := by exact_mod_cast hCH
  have zNC1 : (1 : Int) ≤ (N : Int) * (C : Int) := by
    have := mul_le_mul zN zC zero_le_one (le_trans zero_le_one zN)
    simpa using this
  have ox : r.p.outSize.x = (W : Int) := by rw [hout]
  have oy : r.p.outSize.y = (H : Int) := by rw [hout]
  -- bounds on the major and minor sizes
  have hS : 1 ≤ r.p.sizeMajor ∧ r.p.sizeMajor ≤ 2147483647 ∧ 1 ≤ r.p.sizeMinor ∧
      r.p.sizeMinor ≤ (C : Int) := by
    rcases hsz with ⟨a, b⟩ | ⟨a, b⟩
    · rw [a, b]; exact ⟨zN, zN', zC, le_refl _⟩
    · rw [a, b]; exact ⟨zNC1, zNC, le_refl _, zC⟩
  obtain ⟨hS1, hS2, hm1, hm2⟩ := hS
  obtain ⟨v1, v2, _⟩ := looping_values r.p.sizeMajor r.p.sizeMinor r.spec.loopMinor hS1 hS2 hm1
    (le_trans hm2 zC') hlm
  have eLM : r.p.loopMajor = ceilDiv r.p.sizeMajor 16384 := by rw [hLM]; exact v1
  have eLm : r.p.launchMinor = ceilDiv r.p.sizeMinor r.p.loopMinor := by
    rw [hlaunchm, hLm]; exact v2
  have eLMaj : r.p.launchMajor = ceilDiv r.p.sizeMajor r.p.loopMajor := by
    rw [hlaunchM, eLM]
    exact ceilIdiom_eq r.p.sizeMajor (ceilDiv r.p.sizeMajor 16384) hS1 hS2
      (ceilDiv_bounds r.p.sizeMajor 16384 hS1 (by norm_num)).1
  obtain ⟨b1, b2⟩ := launchMajor_bounds r.p.sizeMajor hS1
  obtain ⟨k1, k2, _, _⟩ := ceilDiv_bounds r.p.sizeMinor r.spec.loopMinor hm1 hlm
  have eLMaj' : r.p.launchMajor = ceilDiv r.p.sizeMajor (ceilDiv r.p.sizeMajor 16384) := by
    rw [eLMaj, eLM]
  have eLm' : r.p.launchMinor = ceilDiv r.p.sizeMinor r.spec.loopMinor := by rw [eLm, hLm]
  have lmaj0 : 0 ≤ r.p.launchMajor := by rw [eLMaj']; exact le_trans zero_le_one b1
  have lmaj1 : r.p.launchMajor ≤ 2147483647 := by
    rw [eLMaj']; exact le_trans b2 (by norm_num)
  have lmin0 : 0 ≤ r.p.launchMinor := by rw [eLm']; exact le_trans zero_le_one k1
  have lmin1 : r.p.launchMinor ≤ (C : Int) := by rw [eLm']; exact le_trans k2 hm2
  refine ⟨⟨hS1, hm1, by rw [ox]; exact zW, by rw [oy]; exact zH⟩, ⟨eLM, eLMaj, eLm⟩, ?_⟩
  rw [hgrid]
  unfold computeGridSize gridUnitW gridUnitH
  rw [ox, oy, hLX]
  rcases ht with hneg | ⟨htw, hth, hprod⟩
  · rw [if_pos hneg, if_pos hneg, if_pos hneg]
    obtain ⟨lx, hlxe⟩ := Int.eq_ofNat_of_zero_le (le_trans zero_le_one hlx)
    obtain ⟨lm, hlme⟩ := Int.eq_ofNat_of_zero_le lmin0
    rw [hlxe] at hlx hlx'
    rw [hlme] at lmin1
    have g := gridLarge_values W H lx lm hW hW' hH hH' (by exact_mod_cast hlx)
      (by exact_mod_cast hlx') (by exact_mod_cast (le_trans lmin1 zC'))
    rw [hlxe, hlme]
    exact ⟨toSize_of_nonneg lmaj0 lmaj1, g.1, g.2⟩
  · have hnn : ¬ r.spec.tileOutW < 0 := not_lt.mpr (le_trans zero_le_one htw)
    rw [if_neg hnn, if_neg hnn, if_neg hnn]
    obtain ⟨j1, j2, _, _⟩ := ceilDiv_bounds (H : Int) r.spec.tileOutH zH hth
    have hrows : ceilDiv (H : Int) r.spec.tileOutH * r.p.launchMinor ≤ 2147483647 := by
      have h1 : ceilDiv (H : Int) r.spec.tileOutH * r.p.launchMinor ≤ (H : Int) * (C : Int) :=
        mul_le_mul j2 lmin1 lmin0 (le_trans zero_le_one zH)
      have h2 : (H : Int) * (C : Int) = (C : Int) * (H : Int) := mul_comm _ _
      rw [h2] at h1
      exact le_trans h1 zCH
    have g := gridSmall_values (W : Int) (H : Int) r.spec.tileOutW r.spec.tileOutH r.spec.loopX
      r.p.launchMinor zW zW' zH zH' htw hth hlx hprod lmin0 hrows
    exact ⟨toSize_of_nonneg lmaj0 lmaj1, g.1, g.2⟩

theorem TORCH_CHECK_bind_eq_error {γ : Type} {c : Bool} {e e' : Failure}
    {k : Unit → Except Failure γ}
    (h : (TORCH_CHECK c e >>= k) = .error e') :
    (c = false ∧ e' = e) ∨ (c = true ∧ k () = .error e') := by
  cases c with
  | false =>
    left
    refine ⟨rfl, ?_⟩
    have h' : (Except.error e : Except Failure γ) = .error e' := h
    cases h'
    rfl
  | true => exact Or.inr ⟨rfl, h⟩

theorem sizes_pos_of_numel_pos {α : Type} (f : Tensor α) (hn : 0 < f.numel) (hd : f.dim = 2) :
    1 ≤ f.size 0 ∧ 1 ≤ f.size 1 := by
  obtain ⟨dev, dt, axes, fmt, st⟩ := f
  simp only [Tensor.dim] at hd
  match axes, hd with
  | [b0, b1], _ =>
    simp only [Tensor.numel, List.map_cons, List.map_nil, List.prod_cons, List.prod_nil,
      mul_one] at hn
    have p0 : 0 < b0.size := by
      rcases Nat.eq_zero_or_pos b0.size with h0 | h0
      · rw [h0] at hn; simp at hn
      · exact h0
    have p1 : 0 < b1.size := by
      rcases Nat.eq_zero_or_pos b1.size with h0 | h0
      · rw [h0] at hn; simp at hn
      · exact h0
    simp only [Tensor.size, List.getD_cons_zero, List.getD_cons_succ]
    exact ⟨by exact_mod_cast p0, by exact_mod_cast p1⟩

theorem numel_eq_zero_of_zero_extent {α : Type} (f : Tensor α)
    (hz : ∃ a ∈ f.axes, a.size = 0) : f.numel = 0 := by
  obtain ⟨a, ha, h0⟩ := hz
  unfold Tensor.numel
  apply List.prod_eq_zero
  rw [← h0]
  exact List.mem_map_of_mem Axis.size ha

theorem validateArguments_ne_fTooSmall {α : Type} (x f : Tensor α)
    (upx upy downx downy : Int) :
    validateArguments x f upx upy downx downy ≠ .error Failure.fTooSmall := by
  intro h
  unfold validateArguments at h
  rcases TORCH_CHECK_bind_eq_error h with ⟨_, he⟩ | ⟨_, h⟩
  · cases he
  rcases TORCH_CHECK_bind_eq_error h with ⟨_, he⟩ | ⟨_, h⟩
  · cases he
  rcases TORCH_CHECK_bind_eq_error h with ⟨_, he⟩ | ⟨_, h⟩
  · cases he
  rcases TORCH_CHECK_bind_eq_error h with ⟨_, he⟩ | ⟨_, h⟩
  · cases he
  rcases TORCH_CHECK_bind_eq_error h with ⟨_, he⟩ | ⟨_, h⟩
  · cases he
  rcases TORCH_CHECK_bind_eq_error h with ⟨_, he⟩ | ⟨_, h⟩
  · cases he
  rcases TORCH_CHECK_bind_eq_error h with ⟨_, he⟩ | ⟨hnum, h⟩
  · cases he
  rcases TORCH_CHECK_bind_eq_error h with ⟨_, he⟩ | ⟨_, h⟩
  · cases he
  rcases TORCH_CHECK_bind_eq_error h with ⟨_, he⟩ | ⟨hdim, h⟩
  · cases he
  rcases TORCH_CHECK_bind_eq_error h with ⟨_, he⟩ | ⟨_, h⟩
  · cases he
  rcases TORCH_CHECK_bind_eq_error h with ⟨hsz, _⟩ | ⟨_, h⟩
  · simp only [decide_eq_true_eq] at hnum hdim
    obtain ⟨s0, s1⟩ := sizes_pos_of_numel_pos f hnum hdim
    simp [s0, s1] at hsz
  rcases TORCH_CHECK_bind_eq_error h with ⟨_, he⟩ | ⟨_, h⟩
  · cases he
  have h' : TORCH_CHECK (decide (downx ≥ 1) && decide (downy ≥ 1)) Failure.downTooSmall
      = .error Failure.fTooSmall := h
  unfold TORCH_CHECK at h'
  split at h'
  · cases h'
  · cases h'

theorem sizeMajor_range_of_valid {α G : Type} (x f y : Tensor α)
    (upx upy downx downy padx0 pady0 : Int) (flip : Bool) (gain : G)
    (hv : validateArguments x f upx upy downx downy = .ok ()) :
    1 ≤ (initParams x f y upx upy downx downy padx0 pady0 flip gain).sizeMajor ∧
    (initParams x f y upx upy downx downy padx0 pady0 flip gain).sizeMajor ≤ 2147483647 := by
  have hval := (validateArguments_eq_ok_iff x f upx upy downx downy).mp hv
  obtain ⟨a0, a1, a2, a3, hax, p0, p1, p2, p3, hprod⟩ := input_axes_of_valid hval
  obtain ⟨hab, hn, hc, _, _⟩ := le_of_prod4_le p0 p1 p2 p3 hprod
  have e0 : x.size 0 = (a0.size : Int) := by simp [Tensor.size, hax]
  have e1 : x.size 1 = (a1.size : Int) := by simp [Tensor.size, hax]
  have hM : (initParams x f y upx upy downx downy padx0 pady0 flip gain).sizeMajor =
      if wrapInt (x.stride 1) = 1 then wrapInt (a0.size : Int)
      else mulInt (wrapInt (a0.size : Int)) (wrapInt (a1.size : Int)) := by
    rw [← e0, ← e1]; rfl
  rw [hM, wrapInt_natCast hn, wrapInt_natCast hc, mulInt_natCast hab]
  have zN : (1 : Int) ≤ (a0.size : Int) := by exact_mod_cast p0
  have zC : (1 : Int) ≤ (a1.size : Int) := by exact_mod_cast p1
  have zN' : (a0.size : Int) ≤ 2147483647 := by exact_mod_cast hn
  have zNC : (a0.size : Int) * (a1.size : Int) ≤ 2147483647 := by exact_mod_cast hab
  have zNC1 : (1 : Int) ≤ (a0.size : Int) * (a1.size : Int) := by
    have := mul_le_mul zN zC zero_le_one (le_trans zero_le_one zN)
    simpa using this
  by_cases hw : wrapInt (x.stride 1) = 1
  · rw [if_pos hw]; exact ⟨zN, zN'⟩
  · rw [if_neg hw]; exact ⟨zNC1, zNC⟩

theorem stride_le_of_footprint (n0 n1 n2 n3 : Nat) (s0 s1 s2 s3 : Int)
    (p0 : 1 ≤ n0) (p1 : 1 ≤ n1) (p2 : 1 ≤ n2) (p3 : 1 ≤ n3)
    (h0 : 0 ≤ s0) (h1 : 0 ≤ s1) (h2 : 0 ≤ s2) (h3 : 0 ≤ s3)
    (hsum : ((n0 : Int) - 1) * s0 + (((n1 : Int) - 1) * s1 + (((n2 : Int) - 1) * s2
      + (((n3 : Int) - 1) * s3 + 0))) ≤ 2147483647) :
    (2 ≤ n0 → s0 ≤ 2147483647) ∧ (2 ≤ n1 → s1 ≤ 2147483647) ∧
    (2 ≤ n2 → s2 ≤ 2147483647) ∧ (2 ≤ n3 → s3 ≤ 2147483647) := by
  have t0 : 0 ≤ ((n0 : Int) - 1) * s0 := mul_nonneg (by omega) h0
  have t1 : 0 ≤ ((n1 : Int) - 1) * s1 := mul_nonneg (by omega) h1
  have t2 : 0 ≤ ((n2 : Int) - 1) * s2 := mul_nonneg (by omega) h2
  have t3 : 0 ≤ ((n3 : Int) - 1) * s3 := mul_nonneg (by omega) h3
  refine ⟨fun hn => ?_, fun hn => ?_, fun hn => ?_, fun hn => ?_⟩
  · have : s0 ≤ ((n0 : Int) - 1) * s0 := le_mul_of_one_le_left h0 (by omega)
    linarith
  · have : s1 ≤ ((n1 : Int) - 1) * s1 := le_mul_of_one_le_left h1 (by omega)
    linarith
  · have : s2 ≤ ((n2 : Int) - 1) * s2 := le_mul_of_one_le_left h2 (by omega)
    linarith
  · have : s3 ≤ ((n3 : Int) - 1) * s3 := le_mul_of_one_le_left h3 (by omega)
    linarith

/-- While no intermediate of lines 41-42 leaves the range of `int`, the size
check agrees with the floor formula, and an accepted extent equals the floor
formula and is the largest `n` whose window fits. -/
theorem outExtent_of_no_overflow (inSize up pad0 pad1 filterSize down : Int)
    (hi : -2147483648 ≤ inSize ∧ inSize ≤ 2147483647)
    (hf : -2147483648 ≤ filterSize ∧ filterSize ≤ 2147483647)
    (h1 : -2147483648 ≤ inSize * up ∧ inSize * up ≤ 2147483647)
    (h2 : -2147483648 ≤ inSize * up + pad0 ∧ inSize * up + pad0 ≤ 2147483647)
    (h3 : -2147483648 ≤ inSize * up + pad0 + pad1 ∧ inSize * up + pad0 + pad1 ≤ 2147483647)
    (h4 : -2147483648 ≤ inSize * up + pad0 + pad1 - filterSize ∧
      inSize * up + pad0 + pad1 - filterSize ≤ 2147483647)
    (h5 : -2147483648 ≤ inSize * up + pad0 + pad1 - filterSize + down ∧
      inSize * up + pad0 + pad1 - filterSize + down ≤ 2147483647)
    (hd : 1 ≤ down) :
    (1 ≤ outExtent inSize up pad0 pad1 filterSize down ↔
      1 ≤ floorOutExtent inSize up pad0 pad1 filterSize down) ∧
    (1 ≤ outExtent inSize up pad0 pad1 filterSize down →
      outExtent inSize up pad0 pad1 filterSize down
        = floorOutExtent inSize up pad0 pad1 filterSize down ∧
      windowFits (outExtent inSize up pad0 pad1 filterSize down) down filterSize inSize up
        pad0 pad1 ∧
      ¬ windowFits (outExtent inSize up pad0 pad1 filterSize down + 1) down filterSize inSize up
        pad0 pad1) := by
  unfold outExtent floorOutExtent windowFits mulInt addInt subInt divInt
  rw [wrapInt_eq_self hi.1 hi.2, wrapInt_eq_self hf.1 hf.2, wrapInt_eq_self h1.1 h1.2,
    wrapInt_eq_self h2.1 h2.2, wrapInt_eq_self h3.1 h3.2, wrapInt_eq_self h4.1 h4.2,
    wrapInt_eq_self h5.1 h5.2, Int.fdiv_eq_ediv _ (le_trans zero_le_one hd)]
  generalize inSize * up = P at *
  clear hi hf h1 h2 h3 h4
  have hrw : P + pad0 + pad1 - filterSize + down = (P + pad0 + pad1 - filterSize) + down := rfl
  generalize hnum : P + pad0 + pad1 - filterSize + down = num at *
  have hsum : P + pad0 + pad1 = num + filterSize - down := by omega
  rw [hsum]
  clear hsum hnum hrw
  by_cases hn : 0 ≤ num
  · rw [Int.tdiv_eq_ediv hn (le_trans zero_le_one hd)]
    have q0 : 0 ≤ num / down := Int.ediv_nonneg hn (by omega)
    have q1 : num / down ≤ num := Int.ediv_le_self _ hn
    rw [wrapInt_eq_self (by omega) (by omega)]
    have m1 : num / down * down ≤ num := Int.ediv_mul_le num (by omega)
    have m2 : num < (num / down + 1) * down := Int.lt_ediv_add_one_mul_self num (by omega)
    refine ⟨Iff.rfl, fun _ => ⟨rfl, ?_, ?_⟩⟩
    · have : (num / down - 1) * down = num / down * down - down := by ring
      omega
    · have : (num / down + 1 - 1) * down = (num / down + 1) * down - down := by ring
      omega
  · have hneg : num < 0 := not_le.mp hn
    have e : Int.tdiv num down = -(Int.tdiv (-num) down) := by
      rw [Int.neg_tdiv, neg_neg]
    have e2 : Int.tdiv (-num) down = (-num) / down :=
      Int.tdiv_eq_ediv (by omega) (by omega)
    have e3 : (-num) / down ≤ -num := Int.ediv_le_self _ (by omega)
    have e4 : 0 ≤ (-num) / down := Int.ediv_nonneg (by omega) (by omega)
    have t1 : Int.tdiv num down ≤ 0 := by omega
    have t2 : -2147483648 ≤ Int.tdiv num down := by omega
    rw [wrapInt_eq_self t2 (by omega)]
    have f1 : num / down < 0 := Int.ediv_neg' hneg (by omega)
    constructor
    · constructor
      · intro h; omega
      · intro h; omega
    · intro h; omega

theorem bind_eq_error {ε β γ : Type} {m : Except ε β} {k : β → Except ε γ} {e : ε}
    (h : (m >>= k) = .error e) : m = .error e ∨ ∃ a, m = .ok a ∧ k a = .error e := by
  cases m with
  | error e' =>
    left
    have h' : (Except.error e' : Except ε γ) = .error e := h
    cases h'
    rfl
  | ok a => exact Or.inr ⟨a, rfl, h⟩

theorem trapOnZero_bind_eq_error {γ : Type} {d : Int} {e : Failure}
    {k : Unit → Except Failure γ}
    (h : (trapOnZero d >>= k) = .error e) :
    (d = 0 ∧ e = Failure.divisionByZero) ∨ (d ≠ 0 ∧ k () = .error e) := by
  unfold trapOnZero at h
  by_cases hd : d = 0
  · rw [if_pos hd] at h
    left
    have h' : (Except.error Failure.divisionByZero : Except Failure γ) = .error e := h
    cases h'
    exact ⟨hd, rfl⟩
  · rw [if_neg hd] at h
    exact Or.inr ⟨hd, h⟩

theorem validateArguments_ne_divisionByZero {α : Type} (x f : Tensor α)
    (upx upy downx downy : Int) :
    validateArguments x f upx upy downx downy ≠ .error Failure.divisionByZero := by
  intro h
  unfold validateArguments at h
  rcases TORCH_CHECK_bind_eq_error h with ⟨_, he⟩ | ⟨_, h⟩
  · cases he
  rcases TORCH_CHECK_bind_eq_error h with ⟨_, he⟩ | ⟨_, h⟩
  · cases he
  rcases TORCH_CHECK_bind_eq_error h with ⟨_, he⟩ | ⟨_, h⟩
  · cases he
  rcases TORCH_CHECK_bind_eq_error h with ⟨_, he⟩ | ⟨_, h⟩
  · cases he
  rcases TORCH_CHECK_bind_eq_error h with ⟨_, he⟩ | ⟨_, h⟩
  · cases he
  rcases TORCH_CHECK_bind_eq_error h with ⟨_, he⟩ | ⟨_, h⟩
  · cases he
  rcases TORCH_CHECK_bind_eq_error h with ⟨_, he⟩ | ⟨_, h⟩
  · cases he
  rcases TORCH_CHECK_bind_eq_error h with ⟨_, he⟩ | ⟨_, h⟩
  · cases he
  rcases TORCH_CHECK_bind_eq_error h with ⟨_, he⟩ | ⟨_, h⟩
  · cases he
  rcases TORCH_CHECK_bind_eq_error h with ⟨_, he⟩ | ⟨_, h⟩
  · cases he
  rcases TORCH_CHECK_bind_eq_error h with ⟨_, he⟩ | ⟨_, h⟩
  · cases he
  rcases TORCH_CHECK_bind_eq_error h with ⟨_, he⟩ | ⟨_, h⟩
  · cases he
  have h' : TORCH_CHECK (decide (downx ≥ 1) && decide (downy ≥ 1)) Failure.downTooSmall
      = .error Failure.divisionByZero := h
  unfold TORCH_CHECK at h'
  split at h'
  · cases h'
  · cases h'

/-- A call that returns has met no zero divisor. -/
theorem upfirdn2d_body_ok_divisors {α G : Type}
    {choose : ScalarType → upfirdn2d_kernel_params G → upfirdn2d_kernel_spec}
    {alloc : Nat → Option (List α)}
    {x f : Tensor α} {upx upy downx downy padx0 padx1 pady0 pady1 : Int} {flip : Bool}
    {gain : G} {r : Launch α G}
    (h : upfirdn2d_body choose alloc x f upx upy downx downy padx0 padx1 pady0 pady1 flip gain
      = .ok r) :
    r.p.loopMinor ≠ 0 ∧ r.p.loopMajor ≠ 0 ∧
    gridDivisorX r.p r.spec ≠ 0 ∧ gridDivisorY r.spec ≠ 0 := by
  unfold upfirdn2d_body at h
  obtain ⟨u, hv, h⟩ := bind_eq_ok h
  obtain ⟨hout, h⟩ := TORCH_CHECK_bind_eq_ok h
  generalize outExtent (x.size 3) upx padx0 padx1 (f.size 1) downx = outW at h
  generalize outExtent (x.size 2) upy pady0 pady1 (f.size 0) downy = outH at h
  dsimp only at h
  cases ha : alloc ((x.size 0).toNat * (x.size 1).toNat * outH.toNat * outW.toNat) with
  | none =>
    rw [ha] at h
    cases h
  | some fresh =>
    rw [ha] at h
    dsimp only at h
    obtain ⟨_, h⟩ := TORCH_CHECK_bind_eq_ok h
    obtain ⟨_, h⟩ := TORCH_CHECK_bind_eq_ok h
    obtain ⟨_, h⟩ := TORCH_CHECK_bind_eq_ok h
    obtain ⟨d1, h⟩ := trapOnZero_bind_eq_ok h
    obtain ⟨d2, h⟩ := trapOnZero_bind_eq_ok h
    obtain ⟨d3, h⟩ := trapOnZero_bind_eq_ok h
    obtain ⟨d4, h⟩ := trapOnZero_bind_eq_ok h
    cases h
    exact ⟨d1, d2, d3, d4⟩

/-- A call that ends with `divisionByZero` has passed every check, the
allocation and the dispatch, and one of its four divisors is zero. -/
theorem upfirdn2d_body_eq_divisionByZero {α G : Type}
    {choose : ScalarType → upfirdn2d_kernel_params G → upfirdn2d_kernel_spec}
    {alloc : Nat → Option (List α)}
    {x f : Tensor α} {upx upy downx downy padx0 padx1 pady0 pady1 : Int} {flip : Bool}
    {gain : G}
    (h : upfirdn2d_body choose alloc x f upx upy downx downy padx0 padx1 pady0 pady1 flip gain
      = .error Failure.divisionByZero) :
    validateArguments x f upx upy downx downy = .ok () ∧
    ∃ y : Tensor α,
      (setLoopingOptions (initParams x f y upx upy downx downy padx0 pady0 flip gain)
          (choose x.dtype (initParams x f y upx upy downx downy padx0 pady0 flip gain))).loopMinor
        = 0 ∨
      (setLoopingOptions (initParams x f y upx upy downx downy padx0 pady0 flip gain)
          (choose x.dtype (initParams x f y upx upy downx downy padx0 pady0 flip gain))).loopMajor
        = 0 ∨
      gridDivisorX
          (setLoopingOptions (initParams x f y upx upy downx downy padx0 pady0 flip gain)
            (choose x.dtype (initParams x f y upx upy downx downy padx0 pady0 flip gain)))
          (choose x.dtype (initParams x f y upx upy downx downy padx0 pady0 flip gain)) = 0 ∨
      gridDivisorY (choose x.dtype (initParams x f y upx upy downx downy padx0 pady0 flip gain))
        = 0 := by
  unfold upfirdn2d_body at h
  rcases bind_eq_error h with hv | ⟨u, hv, h⟩
  · exact absurd hv (validateArguments_ne_divisionByZero x f upx upy downx downy)
  refine ⟨hv, ?_⟩
  rcases TORCH_CHECK_bind_eq_error h with ⟨_, he⟩ | ⟨_, h⟩
  · cases he
  generalize outExtent (x.size 3) upx padx0 padx1 (f.size 1) downx = outW at h
  generalize outExtent (x.size 2) upy pady0 pady1 (f.size 0) downy = outH at h
  dsimp only at h
  cases ha : alloc ((x.size 0).toNat * (x.size 1).toNat * outH.toNat * outW.toNat) with
  | none =>
    rw [ha] at h
    cases h
  | some fresh =>
    rw [ha] at h
    dsimp only at h
    refine ⟨torch_empty x (x.size 0) (x.size 1) outH outW fresh, ?_⟩
    rcases TORCH_CHECK_bind_eq_error h with ⟨_, he⟩ | ⟨_, h⟩
    · cases he
    rcases TORCH_CHECK_bind_eq_error h with ⟨_, he⟩ | ⟨_, h⟩
    · cases he
    rcases TORCH_CHECK_bind_eq_error h with ⟨_, he⟩ | ⟨_, h⟩
    · cases he
    rcases trapOnZero_bind_eq_error h with ⟨d, _⟩ | ⟨_, h⟩
    · exact Or.inl d
    rcases trapOnZero_bind_eq_error h with ⟨d, _⟩ | ⟨_, h⟩
    · exact Or.inr (Or.inl d)
    rcases trapOnZero_bind_eq_error h with ⟨d, _⟩ | ⟨_, h⟩
    · exact Or.inr (Or.inr (Or.inl d))
    rcases trapOnZero_bind_eq_error h with ⟨d, _⟩ | ⟨_, h⟩
    · exact Or.inr (Or.inr (Or.inr d))
    cases h

theorem extents_pos_of_numel_pos {α : Type} (x : Tensor α) (h : 0 < x.numel) :
    ∀ a ∈ x.axes, 1 ≤ a.size := by
  intro a ha
  rcases Nat.eq_zero_or_pos a.size with h0 | h0
  · have := numel_eq_zero_of_zero_extent x ⟨a, ha, h0⟩
    rw [this] at h
    exact absurd h (lt_irrefl 0)
  · exact h0

theorem footprint_le_iff_maxReachableOffset {α : Type} (x : Tensor α) (hdim : x.dim = 4)
    (hnum : 0 < x.numel) (hs : ∀ a ∈ x.axes, 0 ≤ a.stride)
    (hfit : exactFootprint x.axes ≤ 2 ^ 63 - 1) :
    x.footprint ≤ 2 ^ 31 - 1 ↔ ∃ m, maxReachableOffset x.axes = some m ∧ m ≤ 2 ^ 31 - 1 := by
  have hpos := extents_pos_of_numel_pos x hnum
  rw [footprint_eq_exactFootprint x hdim hpos hs hfit, maxReachableOffset_eq x.axes hpos hs]
  constructor
  · intro h
    exact ⟨_, rfl, h⟩
  · rintro ⟨m, hm, hle⟩
    cases hm
    exact hle

theorem checkedConditions_iff_spec {α : Type} (x f : Tensor α) (upx upy downx downy : Int)
    (hs : ∀ a ∈ x.axes, 0 ≤ a.stride) (hfit : exactFootprint x.axes ≤ 2 ^ 63 - 1) :
    CheckedConditions x f upx upy downx downy ↔ SpecValidArguments x f upx upy downx downy := by
  unfold CheckedConditions SpecValidArguments
  constructor
  · rintro ⟨a, b, c, d, e, g, h, rest⟩
    exact ⟨a, b, c, d, e, g, (footprint_le_iff_maxReachableOffset x e c.1 hs hfit).mp h, rest⟩
  · rintro ⟨a, b, c, d, e, g, h, rest⟩
    exact ⟨a, b, c, d, e, g, (footprint_le_iff_maxReachableOffset x e c.1 hs hfit).mpr h, rest⟩

theorem upfirdn2d_error_of_not_checked {α G : Type} (x f : Tensor α)
    (upx upy downx downy : Int) (hv : ¬ CheckedConditions x f upx upy downx downy)
    (choose : ScalarType → upfirdn2d_kernel_params G → upfirdn2d_kernel_spec)
    (alloc : Nat → Option (List α)) (padx0 padx1 pady0 pady1 : Int) (flip : Bool) (gain : G) :
    ∃ e, upfirdn2d choose alloc x f upx upy downx downy padx0 padx1 pady0 pady1 flip gain
      = .error e := by
  cases hval : validateArguments x f upx upy downx downy with
  | error e =>
    refine ⟨e, ?_⟩
    unfold upfirdn2d
    rw [upfirdn2d_body_error_of_validate choose alloc x f upx upy downx downy padx0 padx1 pady0
      pady1 flip gain e hval]
    rfl
  | ok u =>
    exact absurd ((validateArguments_eq_ok_iff x f upx upy downx downy).mp hval) hv

/-! ## Claims -/

/-- C1 (the code departs from the claim).  On the `(1,1,1,65536)` input with
`upx = 65537`, a `1x1` filter, no padding and no down-sampling the call is
accepted and returns a tensor of width `65536`, whereas the exact formula gives
`65536*65537 = 4295032832`: the product is formed in 32-bit `int`. -/
theorem upfirdn2d_width_wraps_at_up_65537 :
    returnedSizes (upfirdn2d chooseLarge allocZero wideInput unitFilter 65537 1 1 1 0 0 0 0 false 1)
      = .ok [1, 1, 1, 65536] ∧
    floorOutExtent 65536 65537 0 0 1 1 = 4295032832 := by
  constructor
  · rfl
  · decide

/-- C2 (the code departs from the claim).  With both horizontal pads at
`-2147483648` the `1x1` input is accepted with output width `1` although the
floor formula gives a width below `1`; with `upx = 65536` the `(1,1,1,65536)`
input is refused as too small although the floor formula gives a width of
`4294967296` and a height of `1`. -/
theorem upfirdn2d_size_check_differs_from_floor :
    (returnedSizes
        (upfirdn2d chooseLarge allocZero pixelInput unitFilter 1 1 1 1
          (-2147483648) (-2147483648) 0 0 false 1) = .ok [1, 1, 1, 1] ∧
      floorOutExtent 1 1 (-2147483648) (-2147483648) 1 1 < 1) ∧
    (returnedSizes
        (upfirdn2d chooseLarge allocZero wideInput unitFilter 65536 1 1 1 0 0 0 0 false 1)
        = .error Failure.outputTooSmall ∧
      1 ≤ floorOutExtent 65536 65536 0 0 1 1 ∧ 1 ≤ floorOutExtent 1 1 0 0 1 1) := by
  refine ⟨⟨?_, ?_⟩, ?_, ?_, ?_⟩
  · rfl
  · decide
  · rfl
  · decide
  · decide

/-- C3 (counterexample).  The input of shape `(2,1,1,2)` with strides
`(-2^31, 0, 0, 2^31)` and the input of shape `(1,1,1,5)` with inner stride
`2^62` pass every argument check, although the footprint of each, the maximum
reachable element offset, exceeds `2^31-1`: the listed conditions do not all
hold. -/
theorem validation_accepts_footprint_beyond_int :
    (validateArguments crossedInput unitFilter 1 1 1 1 = .ok () ∧
      ¬ SpecValidArguments crossedInput unitFilter 1 1 1 1) ∧
    (validateArguments sparseInput unitFilter 1 1 1 1 = .ok () ∧
      ¬ SpecValidArguments sparseInput unitFilter 1 1 1 1) := by
  refine ⟨⟨rfl, ?_⟩, rfl, ?_⟩
  · rintro ⟨_, _, _, _, _, _, ⟨m, hm, hle⟩, _⟩
    have h : maxReachableOffset crossedInput.axes = some 2147483648 := rfl
    rw [h] at hm
    cases hm
    norm_num at hle
  · rintro ⟨_, _, _, _, _, _, ⟨m, hm, hle⟩, _⟩
    have h : maxReachableOffset sparseInput.axes = some 18446744073709551616 := rfl
    rw [h] at hm
    cases hm
    norm_num at hle

/-- C3 (amended).  For every input whose strides are not negative and whose sum
of `(size-1)*stride` is representable in `int64_t`, the argument checks of
`upfirdn2d` pass exactly when every listed condition holds (same device on the
target, float32 filter, element counts in `(0, 2^31-1]`, ranks 4 and 2, maximum
reachable element offset of `x` at most `2^31-1`, filter extents, up and down
factors at least 1); when one is violated the call returns a failure and no
tensor, whatever the other arguments. -/
theorem validateArguments_accepts_iff_spec {α G : Type} (x f : Tensor α)
    (upx upy downx downy : Int)
    (hs : ∀ a ∈ x.axes, 0 ≤ a.stride) (hfit : exactFootprint x.axes ≤ 2 ^ 63 - 1) :
    (validateArguments x f upx upy downx downy = .ok () ↔
      SpecValidArguments x f upx upy downx downy) ∧
    (¬ SpecValidArguments x f upx upy downx downy →
      ∀ (choose : ScalarType → upfirdn2d_kernel_params G → upfirdn2d_kernel_spec)
        (alloc : Nat → Option (List α)) (padx0 padx1 pady0 pady1 : Int) (flip : Bool) (gain : G),
        ∃ e, upfirdn2d choose alloc x f upx upy downx downy padx0 padx1 pady0 pady1 flip gain
          = .error e) := by
  have hiff := checkedConditions_iff_spec x f upx upy downx downy hs hfit
  refine ⟨(validateArguments_eq_ok_iff x f upx upy downx downy).trans hiff, ?_⟩
  intro hv choose alloc padx0 padx1 pady0 pady1 flip gain
  exact upfirdn2d_error_of_not_checked x f upx upy downx downy (fun hc => hv (hiff.mp hc))
    choose alloc padx0 padx1 pady0 pady1 flip gain

/-- C3 (witness): the amended statement at the `(1,1,4,4)` input, which passes,
and at the `(1,1,2,2)` input with rows `2^31` apart, which is refused for its
footprint alone. -/
theorem validateArguments_accepts_iff_spec_witness :
    ((validateArguments rampInput unitFilter 1 1 1 1 = .ok () ↔
        SpecValidArguments rampInput unitFilter 1 1 1 1) ∧
      validateArguments rampInput unitFilter 1 1 1 1 = .ok ()) ∧
    ((validateArguments farInput unitFilter 1 1 1 1 = .ok () ↔
        SpecValidArguments farInput unitFilter 1 1 1 1) ∧
      validateArguments farInput unitFilter 1 1 1 1 = .error Failure.xFootprintTooLarge ∧
      maxReachableOffset farInput.axes = some 2147483649) :=
  ⟨⟨(validateArguments_accepts_iff_spec (G := Int) rampInput unitFilter 1 1 1 1
      (by decide) (by decide)).1, rfl⟩,
    (validateArguments_accepts_iff_spec (G := Int) farInput unitFilter 1 1 1 1
      (by decide) (by decide)).1, rfl, rfl⟩

/-- C4 (counterexample).  On the input of shape `(2,1,1,2)` with strides
`(-2^31, 0, 0, 2^31)` the footprint check accepts (the sum of line 34 is `0`)
although the maximum reachable offset is `2^31`; on the input of shape
`(1,1,1,5)` with inner stride `2^62` the 64-bit sum wraps to `0` and the check
accepts although the maximum reachable offset is `2^64`. -/
theorem footprint_check_misses_max_offset :
    (TORCH_CHECK (decide (crossedInput.footprint ≤ INT_MAX)) Failure.xFootprintTooLarge = .ok () ∧
      validateArguments crossedInput unitFilter 1 1 1 1 = .ok () ∧
      maxReachableOffset crossedInput.axes = some 2147483648) ∧
    (TORCH_CHECK (decide (sparseInput.footprint ≤ INT_MAX)) Failure.xFootprintTooLarge = .ok () ∧
      validateArguments sparseInput unitFilter 1 1 1 1 = .ok () ∧
      maxReachableOffset sparseInput.axes = some 18446744073709551616) := by
  refine ⟨⟨?_, ?_, ?_⟩, ?_, ?_, ?_⟩ <;> rfl

/-- C4 (amended).  For every 4-axis input with extents at least 1, strides that
are not negative and a sum of `(size-1)*stride` representable in `int64_t`, the
footprint check of line 34 accepts exactly when the maximum of
`i0*s0 + i1*s1 + i2*s2 + i3*s3` over all in-range indices is at most `2^31-1`. -/
theorem footprint_check_iff_max_offset {α : Type} (x : Tensor α) (hdim : x.dim = 4)
    (hpos : ∀ a ∈ x.axes, 1 ≤ a.size) (hs : ∀ a ∈ x.axes, 0 ≤ a.stride)
    (hfit : exactFootprint x.axes ≤ 2 ^ 63 - 1) :
    TORCH_CHECK (decide (x.footprint ≤ INT_MAX)) Failure.xFootprintTooLarge = .ok () ↔
      ∃ m, maxReachableOffset x.axes = some m ∧ m ≤ 2 ^ 31 - 1 := by
  rw [footprint_eq_exactFootprint x hdim hpos hs hfit, maxReachableOffset_eq x.axes hpos hs]
  unfold TORCH_CHECK INT_MAX
  by_cases h : exactFootprint x.axes ≤ 2147483647
  · simp [h]
  · simp [h]

/-- C4 (witness): the amended statement at the contiguous `(1,1,1,65536)` input. -/
theorem footprint_check_iff_max_offset_witness :
    TORCH_CHECK (decide (wideInput.footprint ≤ INT_MAX)) Failure.xFootprintTooLarge = .ok () ↔
      ∃ m, maxReachableOffset wideInput.axes = some m ∧ m ≤ 2 ^ 31 - 1 :=
  footprint_check_iff_max_offset wideInput (by decide) (by decide) (by decide) (by decide)

/-- C5 (the code departs from the claim).  On the identity call (the
`(1,1,4,4)` input filled with `1..16`, the filter `[[1.0]]`, all factors 1, no
padding, gain 1) the call is accepted with shape `(1,1,4,4)` and the returned
tensor holds what the allocation held: with zero-filled fresh memory it is
sixteen zeros, not `1..16`.  The kernel launch of lines 116-121 is commented
out, so `y` is returned as `torch::empty` made it. -/
theorem upfirdn2d_identity_call_returns_fresh_storage :
    (upfirdn2d chooseLarge allocZero rampInput unitFilter 1 1 1 1 0 0 0 0 false 1).map
        Tensor.storage = .ok [0, 0, 0, 0, 0, 0, 0, 0, 0, 0, 0, 0, 0, 0, 0, 0] ∧
    rampInput.storage = [1, 2, 3, 4, 5, 6, 7, 8, 9, 10, 11, 12, 13, 14, 15, 16] ∧
    returnedSizes (upfirdn2d chooseLarge allocZero rampInput unitFilter 1 1 1 1 0 0 0 0 false 1)
      = .ok [1, 1, 4, 4] := by
  refine ⟨rfl, rfl, rfl⟩

/-- C6 (counterexample).  The input of shape `(2,2,1,1)` with strides
`(-(2^32+1), 2^32+1, 1, 1)` passes every check (the footprint sum is `0`); its
channel stride is not `1`, yet the record has `sizeMinor = 2` and
`sizeMajor = 2` instead of `1` and `4`: the stride is compared after its
narrowing to `int`, where it reads `1`. -/
theorem sizeMinor_reads_narrowed_stride :
    (upfirdn2d_body chooseLarge allocZero aliasedInput unitFilter 1 1 1 1 0 0 0 0 false 1).map
        (fun r => (r.p.sizeMajor, r.p.sizeMinor)) = .ok (2, 2) ∧
    aliasedInput.stride 1 ≠ 1 ∧ aliasedInput.size 0 = 2 ∧ aliasedInput.size 1 = 2 := by
  refine ⟨rfl, by decide, rfl, rfl⟩

/-- C6 (amended).  For every accepted call whose input has batch extent `N`,
channel extent `C` and a channel stride `s` that fits a 32-bit signed integer
(or `C = 1`), the parameter record has `sizeMinor = C` if `s = 1` and `1`
otherwise, `sizeMajor = (N*C) / sizeMinor`, `sizeMajor * sizeMinor = N*C`, and
both are at least 1. -/
theorem sizeMajor_sizeMinor_of_accepted {α G : Type}
    {choose : ScalarType → upfirdn2d_kernel_params G → upfirdn2d_kernel_spec}
    {alloc : Nat → Option (List α)}
    {x f : Tensor α} {upx upy downx downy padx0 padx1 pady0 pady1 : Int} {flip : Bool}
    {gain : G} {r : Launch α G}
    (h : upfirdn2d_body choose alloc x f upx upy downx downy padx0 padx1 pady0 pady1 flip gain
      = .ok r)
    (hs : (-2147483648 ≤ x.stride 1 ∧ x.stride 1 ≤ 2147483647) ∨ x.size 1 = 1) :
    r.p.sizeMinor = (if x.stride 1 = 1 then x.size 1 else 1) ∧
    r.p.sizeMajor = (x.size 0 * x.size 1) / r.p.sizeMinor ∧
    r.p.sizeMajor * r.p.sizeMinor = x.size 0 * x.size 1 ∧
    1 ≤ r.p.sizeMajor ∧ 1 ≤ r.p.sizeMinor := by
  obtain ⟨hv, _, _, fresh, _, _, _, _, _, _, hp, _⟩ := upfirdn2d_body_eq_ok h
  have hval := (validateArguments_eq_ok_iff x f upx upy downx downy).mp hv
  obtain ⟨a0, a1, a2, a3, hax, p0, p1, p2, p3, hprod⟩ := input_axes_of_valid hval
  obtain ⟨hab, _, _, _, _⟩ := le_of_prod4_le p0 p1 p2 p3 hprod
  have e0 : x.size 0 = (a0.size : Int) := by simp [Tensor.size, hax]
  have e1 : x.size 1 = (a1.size : Int) := by simp [Tensor.size, hax]
  have hs' : (-2147483648 ≤ x.stride 1 ∧ x.stride 1 ≤ 2147483647) ∨ a1.size = 1 := by
    rcases hs with hs | hs
    · exact Or.inl hs
    · right; rw [e1] at hs; exact_mod_cast hs
  have hM : r.p.sizeMajor =
      if wrapInt (x.stride 1) = 1 then wrapInt (a0.size : Int)
      else mulInt (wrapInt (a0.size : Int)) (wrapInt (a1.size : Int)) := by
    rw [hp, ← e0, ← e1]; rfl
  have hm : r.p.sizeMinor = if wrapInt (x.stride 1) = 1 then wrapInt (a1.size : Int) else 1 := by
    rw [hp, ← e1]; rfl
  rw [hM, hm, e0, e1]
  exact major_minor_split a0.size a1.size (x.stride 1) p0 p1 hab hs'

/-- C6 (witness): the amended statement at the channels-last `(2,8,5,7)` input,
whose channel stride is 1 (`sizeMinor = 8`, `sizeMajor = 2`), and at the
contiguous `(2,3,4,4)` input, whose channel stride is 16 (`sizeMinor = 1`,
`sizeMajor = 6`). -/
theorem sizeMajor_sizeMinor_of_accepted_witness :
    (∃ r, upfirdn2d_body chooseLarge allocZero channelsLastInput unitFilter
          1 1 1 1 0 0 0 0 false 1 = .ok r ∧
        (r.p.sizeMinor = 8 ∧ r.p.sizeMajor = 2 ∧ channelsLastInput.stride 1 = 1) ∧
        r.p.sizeMinor
          = (if channelsLastInput.stride 1 = 1 then channelsLastInput.size 1 else 1) ∧
        r.p.sizeMajor = (channelsLastInput.size 0 * channelsLastInput.size 1) / r.p.sizeMinor ∧
        r.p.sizeMajor * r.p.sizeMinor = channelsLastInput.size 0 * channelsLastInput.size 1 ∧
        1 ≤ r.p.sizeMajor ∧ 1 ≤ r.p.sizeMinor) ∧
    (∃ r, upfirdn2d_body chooseLarge allocZero batchInput unitFilter
          1 1 1 1 0 0 0 0 false 1 = .ok r ∧
        (r.p.sizeMinor = 1 ∧ r.p.sizeMajor = 6 ∧ batchInput.stride 1 = 16) ∧
        r.p.sizeMinor = (if batchInput.stride 1 = 1 then batchInput.size 1 else 1) ∧
        r.p.sizeMajor = (batchInput.size 0 * batchInput.size 1) / r.p.sizeMinor ∧
        r.p.sizeMajor * r.p.sizeMinor = batchInput.size 0 * batchInput.size 1 ∧
        1 ≤ r.p.sizeMajor ∧ 1 ≤ r.p.sizeMinor) :=
  ⟨⟨_, rfl, ⟨rfl, rfl, rfl⟩, sizeMajor_sizeMinor_of_accepted
      (show upfirdn2d_body chooseLarge allocZero channelsLastInput unitFilter
        1 1 1 1 0 0 0 0 false 1 = .ok _ from rfl) (Or.inl (by decide))⟩,
    ⟨_, rfl, ⟨rfl, rfl, rfl⟩, sizeMajor_sizeMinor_of_accepted
      (show upfirdn2d_body chooseLarge allocZero batchInput unitFilter
        1 1 1 1 0 0 0 0 false 1 = .ok _ from rfl) (Or.inl (by decide))⟩⟩

/-- C7.  For every parameter record with `1 <= sizeMajor` and `1 <= sizeMinor`
(both C `int`, so at most `INT_MAX`) and every kernel spec with
`loopMinor >= 1`, the looping options of lines 80-84 are
`loopMajor = ceil(sizeMajor / 16384)`, `loopMinor` and `loopX` as in the kernel
spec, `launchMinor = ceil(sizeMinor / loopMinor)` and
`launchMajor = ceil(sizeMajor / loopMajor)`, with the exact rational ceiling. -/
theorem setLoopingOptions_eq_ceilings {G : Type} (p : upfirdn2d_kernel_params G)
    (spec : upfirdn2d_kernel_spec)
    (hM : 1 ≤ p.sizeMajor) (hM' : p.sizeMajor ≤ INT_MAX)
    (hm : 1 ≤ p.sizeMinor) (hm' : p.sizeMinor ≤ INT_MAX)
    (hl : 1 ≤ spec.loopMinor) :
    (setLoopingOptions p spec).loopMajor = ceilDiv p.sizeMajor 16384 ∧
    (setLoopingOptions p spec).loopMinor = spec.loopMinor ∧
    (setLoopingOptions p spec).loopX = spec.loopX ∧
    (setLoopingOptions p spec).launchMinor = ceilDiv p.sizeMinor spec.loopMinor ∧
    (setLoopingOptions p spec).launchMajor
      = ceilDiv p.sizeMajor (setLoopingOptions p spec).loopMajor := by
  obtain ⟨h1, h2, h3⟩ := looping_values p.sizeMajor p.sizeMinor spec.loopMinor hM hM' hm hm' hl
  refine ⟨h1, rfl, rfl, h2, ?_⟩
  have e : (setLoopingOptions p spec).loopMajor = ceilDiv p.sizeMajor 16384 := h1
  rw [e]
  exact h3

/-- C7 (witness): a record with `sizeMajor = 40000`, `sizeMinor = 3` and the
large-filter spec with unit loops. -/
theorem setLoopingOptions_eq_ceilings_witness :
    (setLoopingOptions (paramsOfSizes 40000 3) ⟨-1, -1, 1, 1⟩).loopMajor
      = ceilDiv (paramsOfSizes 40000 3).sizeMajor 16384 ∧
    (setLoopingOptions (paramsOfSizes 40000 3) ⟨-1, -1, 1, 1⟩).loopMinor = 1 ∧
    (setLoopingOptions (paramsOfSizes 40000 3) ⟨-1, -1, 1, 1⟩).loopX = 1 ∧
    (setLoopingOptions (paramsOfSizes 40000 3) ⟨-1, -1, 1, 1⟩).launchMinor
      = ceilDiv (paramsOfSizes 40000 3).sizeMinor 1 ∧
    (setLoopingOptions (paramsOfSizes 40000 3) ⟨-1, -1, 1, 1⟩).launchMajor
      = ceilDiv (paramsOfSizes 40000 3).sizeMajor
          (setLoopingOptions (paramsOfSizes 40000 3) ⟨-1, -1, 1, 1⟩).loopMajor :=
  setLoopingOptions_eq_ceilings (paramsOfSizes 40000 3) ⟨-1, -1, 1, 1⟩
    (by decide) (by decide) (by decide) (by decide) (by decide)

/-- C9 (counterexample).  With a small-filter kernel spec of tile `64x16` the
work-group shape of an accepted call is `(1, 1, 256)`: neither `64x16` nor
`16x64`. -/
theorem blockSize_of_small_spec_is_not_the_tile :
    (upfirdn2d_body chooseSmall allocZero rampInput unitFilter 1 1 1 1 0 0 0 0 false 1).map
        Launch.blockSize = .ok ⟨1, 1, 256⟩ ∧
    (⟨1, 1, 256⟩ : Range3) ≠ ⟨1, 64, 16⟩ ∧ (⟨1, 1, 256⟩ : Range3) ≠ ⟨1, 16, 64⟩ ∧
    computeBlockSize ⟨64, 16, 1, 1⟩ = ⟨1, 1, 256⟩ := by
  refine ⟨rfl, by decide, by decide, rfl⟩

/-- C9 (amended).  For every accepted call whose kernel spec is of the
small-filter strategy (tile width at least 0), the work-group shape chosen by
`upfirdn2d` is the fixed linear shape `(1, 1, 256)`; the tile dimensions enter
the grid only. -/
theorem blockSize_of_small_spec {α G : Type}
    {choose : ScalarType → upfirdn2d_kernel_params G → upfirdn2d_kernel_spec}
    {alloc : Nat → Option (List α)}
    {x f : Tensor α} {upx upy downx downy padx0 padx1 pady0 pady1 : Int} {flip : Bool}
    {gain : G} {r : Launch α G}
    (h : upfirdn2d_body choose alloc x f upx upy downx downy padx0 padx1 pady0 pady1 flip gain
      = .ok r)
    (ht : 0 ≤ r.spec.tileOutW) :
    r.blockSize = ⟨1, 1, 256⟩ := by
  obtain ⟨_, _, _, fresh, _, _, _, _, _, _, _, hb, _⟩ := upfirdn2d_body_eq_ok h
  rw [hb]
  unfold computeBlockSize
  rw [if_neg (not_lt.mpr ht)]

/-- C9 (witness): the amended statement at the `(1,1,4,4)` input with the
`64x16` small-filter spec. -/
theorem blockSize_of_small_spec_witness :
    ∃ r, upfirdn2d_body chooseSmall allocZero rampInput unitFilter 1 1 1 1 0 0 0 0 false 1
        = .ok r ∧ 0 ≤ r.spec.tileOutW ∧ r.blockSize = ⟨1, 1, 256⟩ :=
  ⟨_, rfl, by decide, blockSize_of_small_spec
    (show upfirdn2d_body chooseSmall allocZero rampInput unitFilter 1 1 1 1 0 0 0 0 false 1
      = .ok _ from rfl) (by decide)⟩

/-- C10.  For every `sizeMajor` with `1 <= sizeMajor <= 2^31-1` the major-axis
launch extent set on lines 80 and 84 satisfies `1 <= launchMajor <= 16384`. -/
theorem launchMajor_within_cap {G : Type} (p : upfirdn2d_kernel_params G)
    (spec : upfirdn2d_kernel_spec)
    (hM : 1 ≤ p.sizeMajor) (hM' : p.sizeMajor ≤ 2 ^ 31 - 1) :
    1 ≤ (setLoopingOptions p spec).launchMajor ∧
    (setLoopingOptions p spec).launchMajor ≤ 16384 := by
  have hM2 : p.sizeMajor ≤ 2147483647 := by norm_num at hM'; exact hM'
  obtain ⟨_, _, h3⟩ := looping_values p.sizeMajor 1 1 hM hM2 (le_refl 1) (by norm_num) (le_refl 1)
  have e : (setLoopingOptions p spec).launchMajor = ceilDiv p.sizeMajor (ceilDiv p.sizeMajor 16384) :=
    h3
  rw [e]
  exact launchMajor_bounds p.sizeMajor hM

/-- C10 (witness): the largest `sizeMajor`, `2^31-1`. -/
theorem launchMajor_within_cap_witness :
    1 ≤ (setLoopingOptions (paramsOfSizes 2147483647 1) ⟨-1, -1, 1, 1⟩).launchMajor ∧
    (setLoopingOptions (paramsOfSizes 2147483647 1) ⟨-1, -1, 1, 1⟩).launchMajor ≤ 16384 :=
  launchMajor_within_cap (paramsOfSizes 2147483647 1) ⟨-1, -1, 1, 1⟩ (by decide) (by decide)

/-- C8 (counterexample).  With the small-filter spec of tile width `65536` and
`loopX = 65537` on an output of width `100000`, the grid has `2` columns of
groups, whereas `ceil(100000 / (65536 * 65537)) = 1`: the product of line 99
is formed in 32-bit `int` and reads `65536`. -/
theorem gridSize_columns_wrap_with_wide_tile :
    (upfirdn2d_body chooseWrapping allocZero longInput unitFilter 1 1 1 1 0 0 0 0 false 1).map
        (fun r => (r.gridSize.r1, r.p.outSize.x, gridUnitW r.spec, r.p.loopX))
      = .ok (2, 100000, 65536, 65537) ∧
    ceilDiv 100000 (65536 * 65537) = 1 := by
  refine ⟨rfl, ?_⟩
  rw [ceilDiv_eq _ _ (by norm_num)]
  decide

/-- C8 (amended).  For every accepted call whose kernel spec has
`loopMinor >= 1`, `1 <= loopX <= INT_MAX` and either a negative tile width
(large-filter strategy) or tile width and height at least 1 with
`tileOutW * loopX <= INT_MAX` (small-filter strategy), the grid is
`(launchMajor, ceil(outW / (W * loopX)), ceil(outH / H) * launchMinor)` with
`(W, H) = (32, 4)` in the large-filter strategy and `(tileOutW, tileOutH)` in
the small-filter strategy. -/
theorem gridSize_of_accepted {α G : Type}
    {choose : ScalarType → upfirdn2d_kernel_params G → upfirdn2d_kernel_spec}
    {alloc : Nat → Option (List α)}
    {x f : Tensor α} {upx upy downx downy padx0 padx1 pady0 pady1 : Int} {flip : Bool}
    {gain : G} {r : Launch α G}
    (h : upfirdn2d_body choose alloc x f upx upy downx downy padx0 padx1 pady0 pady1 flip gain
      = .ok r)
    (hlm : 1 ≤ r.spec.loopMinor) (hlx : 1 ≤ r.spec.loopX) (hlx' : r.spec.loopX ≤ INT_MAX)
    (ht : r.spec.tileOutW < 0 ∨
      (1 ≤ r.spec.tileOutW ∧ 1 ≤ r.spec.tileOutH ∧
        r.spec.tileOutW * r.spec.loopX ≤ INT_MAX)) :
    (r.gridSize.r0 : Int) = r.p.launchMajor ∧
    (r.gridSize.r1 : Int) = ceilDiv r.p.outSize.x (gridUnitW r.spec * r.p.loopX) ∧
    (r.gridSize.r2 : Int) = ceilDiv r.p.outSize.y (gridUnitH r.spec) * r.p.launchMinor :=
  (launch_values_of_accepted h hlm hlx hlx' ht).2.2

/-- C8 (witness): the amended statement at the `(1,1,4,4)` input with the
`64x16` small-filter spec. -/
theorem gridSize_of_accepted_witness :
    ∃ r, upfirdn2d_body chooseSmall allocZero rampInput unitFilter 1 1 1 1 0 0 0 0 false 1
        = .ok r ∧
      (r.gridSize.r0 : Int) = r.p.launchMajor ∧
      (r.gridSize.r1 : Int) = ceilDiv r.p.outSize.x (gridUnitW r.spec * r.p.loopX) ∧
      (r.gridSize.r2 : Int) = ceilDiv r.p.outSize.y (gridUnitH r.spec) * r.p.launchMinor :=
  ⟨_, rfl, gridSize_of_accepted
    (show upfirdn2d_body chooseSmall allocZero rampInput unitFilter 1 1 1 1 0 0 0 0 false 1
      = .ok _ from rfl)
    (by decide) (by decide) (by decide) (Or.inr ⟨by decide, by decide, by decide⟩)⟩

/-- C11 (counterexample).  With the small-filter spec of tile width `65536` and
`loopX = 65535` on an output of width `65537`, the grid has `0` columns of
groups, so `gridColumns * W * loopX = 0 < 65537 = outW`: the product of line 99
reads `-65536` as a 32-bit `int` and the quotient is `-1`. -/
theorem grid_leaves_columns_uncovered :
    (upfirdn2d_body chooseNegating allocZero edgeInput unitFilter 1 1 1 1 0 0 0 0 false 1).map
        (fun r => ((r.gridSize.r1 : Int) * gridUnitW r.spec * r.p.loopX, r.p.outSize.x))
      = .ok (0, 65537) := by
  rfl

/-- C11 (amended).  For every accepted call whose kernel spec has
`loopMinor >= 1`, `1 <= loopX <= INT_MAX` and either a negative tile width or
tile width and height at least 1 with `tileOutW * loopX <= INT_MAX`, the launch
geometry leaves no gaps: `launchMajor * loopMajor >= sizeMajor`,
`launchMinor * loopMinor >= sizeMinor`, `gridColumns * W * loopX >= outW` and
`(gridRows / launchMinor) * H >= outH`. -/
theorem launch_geometry_covers {α G : Type}
    {choose : ScalarType → upfirdn2d_kernel_params G → upfirdn2d_kernel_spec}
    {alloc : Nat → Option (List α)}
    {x f : Tensor α} {upx upy downx downy padx0 padx1 pady0 pady1 : Int} {flip : Bool}
    {gain : G} {r : Launch α G}
    (h : upfirdn2d_body choose alloc x f upx upy downx downy padx0 padx1 pady0 pady1 flip gain
      = .ok r)
    (hlm : 1 ≤ r.spec.loopMinor) (hlx : 1 ≤ r.spec.loopX) (hlx' : r.spec.loopX ≤ INT_MAX)
    (ht : r.spec.tileOutW < 0 ∨
      (1 ≤ r.spec.tileOutW ∧ 1 ≤ r.spec.tileOutH ∧
        r.spec.tileOutW * r.spec.loopX ≤ INT_MAX)) :
    r.p.sizeMajor ≤ r.p.launchMajor * r.p.loopMajor ∧
    r.p.sizeMinor ≤ r.p.launchMinor * r.p.loopMinor ∧
    r.p.outSize.x ≤ (r.gridSize.r1 : Int) * gridUnitW r.spec * r.p.loopX ∧
    r.p.outSize.y ≤ ((r.gridSize.r2 : Int) / r.p.launchMinor) * gridUnitH r.spec := by
  obtain ⟨⟨hS, hm, hox, hoy⟩, ⟨eLM, eLMaj, eLm⟩, ⟨_, g1, g2⟩⟩ :=
    launch_values_of_accepted h hlm hlx hlx' ht
  obtain ⟨_, _, _, _, _, _, _, _, _, _, _, _, _, _, _, _, _, hLm, hLX, _, _⟩ :=
    accepted_geometry h
  have hLoopMajor : 1 ≤ r.p.loopMajor := by
    rw [eLM]; exact (ceilDiv_bounds r.p.sizeMajor 16384 hS (by norm_num)).1
  have hLoopMinor : 1 ≤ r.p.loopMinor := by rw [hLm]; exact hlm
  have hLoopX : 1 ≤ r.p.loopX := by rw [hLX]; exact hlx
  have hUW : 1 ≤ gridUnitW r.spec := by
    unfold gridUnitW
    rcases ht with hneg | ⟨htw, _, _⟩
    · rw [if_pos hneg]; norm_num
    · rw [if_neg (not_lt.mpr (le_trans zero_le_one htw))]; exact htw
  have hUH : 1 ≤ gridUnitH r.spec := by
    unfold gridUnitH
    rcases ht with hneg | ⟨htw, hth, _⟩
    · rw [if_pos hneg]; norm_num
    · rw [if_neg (not_lt.mpr (le_trans zero_le_one htw))]; exact hth
  have hUWX : 1 ≤ gridUnitW r.spec * r.p.loopX := by
    have := mul_le_mul hUW hLoopX zero_le_one (le_trans zero_le_one hUW)
    simpa using this
  have hLaunchMinor : 1 ≤ r.p.launchMinor := by
    rw [eLm]; exact (ceilDiv_bounds r.p.sizeMinor r.p.loopMinor hm hLoopMinor).1
  refine ⟨?_, ?_, ?_, ?_⟩
  · rw [eLMaj]; exact (ceilDiv_bounds r.p.sizeMajor r.p.loopMajor hS hLoopMajor).2.2.1
  · rw [eLm]; exact (ceilDiv_bounds r.p.sizeMinor r.p.loopMinor hm hLoopMinor).2.2.1
  · rw [g1, mul_assoc]
    exact (ceilDiv_bounds r.p.outSize.x (gridUnitW r.spec * r.p.loopX) hox hUWX).2.2.1
  · rw [g2, Int.mul_ediv_cancel _ (ne_of_gt (lt_of_lt_of_le zero_lt_one hLaunchMinor))]
    exact (ceilDiv_bounds r.p.outSize.y (gridUnitH r.spec) hoy hUH).2.2.1

/-- C11 (witness): the amended statement at the `(1,1,4,4)` input with the
`64x16` small-filter spec. -/
theorem launch_geometry_covers_witness :
    ∃ r, upfirdn2d_body chooseSmall allocZero rampInput unitFilter 1 1 1 1 0 0 0 0 false 1
        = .ok r ∧
      r.p.sizeMajor ≤ r.p.launchMajor * r.p.loopMajor ∧
      r.p.sizeMinor ≤ r.p.launchMinor * r.p.loopMinor ∧
      r.p.outSize.x ≤ (r.gridSize.r1 : Int) * gridUnitW r.spec * r.p.loopX ∧
      r.p.outSize.y ≤ ((r.gridSize.r2 : Int) / r.p.launchMinor) * gridUnitH r.spec :=
  ⟨_, rfl, launch_geometry_covers
    (show upfirdn2d_body chooseSmall allocZero rampInput unitFilter 1 1 1 1 0 0 0 0 false 1
      = .ok _ from rfl)
    (by decide) (by decide) (by decide) (Or.inr ⟨by decide, by decide, by decide⟩)⟩

/-- C12 (counterexample).  The spec with tile `0x0` and unit loops has
`loopMinor >= 1`, `loopX >= 1` and tile width `>= 0`, so `upfirdn2d` takes the
small-filter branch; both divisors of lines 99 and 100 are zero and the call
on the `(1,1,4,4)` input ends in a division by zero. -/
theorem small_branch_divides_by_zero_tile :
    (upfirdn2d_body chooseZeroTile allocZero rampInput unitFilter 1 1 1 1 0 0 0 0 false 1).map
        (fun _ => ()) = .error Failure.divisionByZero ∧
    (∀ t p, chooseZeroTile t p = ⟨0, 0, 1, 1⟩) ∧
    (1 ≤ (⟨0, 0, 1, 1⟩ : upfirdn2d_kernel_spec).loopMinor ∧
      1 ≤ (⟨0, 0, 1, 1⟩ : upfirdn2d_kernel_spec).loopX ∧
      0 ≤ (⟨0, 0, 1, 1⟩ : upfirdn2d_kernel_spec).tileOutW) ∧
    gridDivisorX (setLoopingOptions (paramsOfSizes 1 1) ⟨0, 0, 1, 1⟩) ⟨0, 0, 1, 1⟩ = 0 ∧
    gridDivisorY ⟨0, 0, 1, 1⟩ = 0 := by
  refine ⟨rfl, fun _ _ => rfl, ⟨by decide, by decide, by decide⟩, rfl, rfl⟩

/-- C12 (amended).  For every call that no check, allocation or dispatch
refuses, and every kernel spec with `loopMinor >= 1`, `loopX >= 1`, tile width
`>= 0` (the small-filter branch) and `tileOutW * loopX <= INT_MAX`, the
grid-size computation is defined, and the call returns, exactly when the tile
width is at least 1 and the tile height is not 0; otherwise the call ends in a
division by zero. -/
theorem small_branch_defined_iff {α G : Type}
    {choose : ScalarType → upfirdn2d_kernel_params G → upfirdn2d_kernel_spec}
    {alloc : Nat → Option (List α)}
    {x f : Tensor α} {upx upy downx downy padx0 padx1 pady0 pady1 : Int} {flip : Bool}
    {gain : G} (spec : upfirdn2d_kernel_spec)
    (hspec : ∀ p, choose x.dtype p = spec)
    (hreach : ∀ e,
      upfirdn2d_body choose alloc x f upx upy downx downy padx0 padx1 pady0 pady1 flip gain
        = .error e → e = Failure.divisionByZero)
    (hlm : 1 ≤ spec.loopMinor) (hlx : 1 ≤ spec.loopX) (ht : 0 ≤ spec.tileOutW)
    (hprod : spec.tileOutW * spec.loopX ≤ INT_MAX) :
    ((∃ r, upfirdn2d_body choose alloc x f upx upy downx downy padx0 padx1 pady0 pady1 flip gain
        = .ok r) ↔ (1 ≤ spec.tileOutW ∧ spec.tileOutH ≠ 0)) ∧
    (upfirdn2d_body choose alloc x f upx upy downx downy padx0 padx1 pady0 pady1 flip gain
        = .error Failure.divisionByZero ↔ (spec.tileOutW = 0 ∨ spec.tileOutH = 0)) := by
  unfold INT_MAX at hprod
  have hsmall : ¬ spec.tileOutW < 0 := not_lt.mpr ht
  have hnn : 0 ≤ spec.tileOutW * spec.loopX := mul_nonneg ht (le_trans zero_le_one hlx)
  have emul : mulInt spec.tileOutW spec.loopX = spec.tileOutW * spec.loopX := by
    unfold mulInt
    exact wrapInt_eq_self (le_trans (by norm_num) hnn) hprod
  have hlx0 : spec.loopX ≠ 0 := ne_of_gt (lt_of_lt_of_le zero_lt_one hlx)
  have key : (∃ r, upfirdn2d_body choose alloc x f upx upy downx downy padx0 padx1 pady0 pady1
      flip gain = .ok r) ↔ (1 ≤ spec.tileOutW ∧ spec.tileOutH ≠ 0) := by
    constructor
    · rintro ⟨r, hr⟩
      obtain ⟨_, _, dx, dy⟩ := upfirdn2d_body_ok_divisors hr
      obtain ⟨_, _, _, _, _, _, _, _, _, hsp, _, _, _⟩ := upfirdn2d_body_eq_ok hr
      obtain ⟨_, _, _, _, _, _, _, _, _, _, _, _, _, _, _, _, _, _, hLX, _, _⟩ :=
        accepted_geometry hr
      rw [hspec] at hsp
      rw [hsp] at dx dy hLX
      unfold gridDivisorX at dx
      unfold gridDivisorY at dy
      rw [if_neg hsmall] at dx dy
      rw [hLX, emul] at dx
      have htw0 : spec.tileOutW ≠ 0 := fun h0 => dx (by rw [h0, zero_mul])
      exact ⟨Int.add_one_le_iff.mpr (lt_of_le_of_ne ht (Ne.symm htw0)), dy⟩
    · rintro ⟨htw, hth⟩
      cases hb : upfirdn2d_body choose alloc x f upx upy downx downy padx0 padx1 pady0 pady1
          flip gain with
      | ok r => exact ⟨r, rfl⟩
      | error e =>
        exfalso
        have he := hreach e hb
        rw [he] at hb
        obtain ⟨hv, y, hz⟩ := upfirdn2d_body_eq_divisionByZero hb
        rw [hspec] at hz
        obtain ⟨hS1, hS2⟩ := sizeMajor_range_of_valid x f y upx upy downx downy padx0 pady0 flip
          gain hv
        have eMaj : (setLoopingOptions
            (initParams x f y upx upy downx downy padx0 pady0 flip gain) spec).loopMajor
            = ceilDiv (initParams x f y upx upy downx downy padx0 pady0 flip gain).sizeMajor
                16384 :=
          ceilIdiom_eq _ 16384 hS1 hS2 (by norm_num)
        have hMaj := (ceilDiv_bounds _ 16384 hS1 (by norm_num)).1
        have eMin : (setLoopingOptions
            (initParams x f y upx upy downx downy padx0 pady0 flip gain) spec).loopMinor
            = spec.loopMinor := rfl
        have eX : (setLoopingOptions
            (initParams x f y upx upy downx downy padx0 pady0 flip gain) spec).loopX
            = spec.loopX := rfl
        rcases hz with h1 | h2 | h3 | h4
        · rw [eMin] at h1
          exact absurd h1 (ne_of_gt (lt_of_lt_of_le zero_lt_one hlm))
        · rw [eMaj] at h2
          rw [h2] at hMaj
          exact absurd hMaj (by norm_num)
        · unfold gridDivisorX at h3
          rw [if_neg hsmall, eX, emul] at h3
          rcases mul_eq_zero.mp h3 with h0 | h0
          · rw [h0] at htw
            exact absurd htw (by norm_num)
          · exact hlx0 h0
        · unfold gridDivisorY at h4
          rw [if_neg hsmall] at h4
          exact hth h4
  refine ⟨key, ?_⟩
  constructor
  · intro hb
    by_contra hne
    push_neg at hne
    have htw : 1 ≤ spec.tileOutW :=
      Int.add_one_le_iff.mpr (lt_of_le_of_ne ht (Ne.symm hne.1))
    obtain ⟨r, hr⟩ := key.mpr ⟨htw, hne.2⟩
    rw [hb] at hr
    cases hr
  · intro hz
    cases hb : upfirdn2d_body choose alloc x f upx upy downx downy padx0 padx1 pady0 pady1
        flip gain with
    | ok r =>
      exfalso
      obtain ⟨htw, hth⟩ := key.mp ⟨r, hb⟩
      rcases hz with h0 | h0
      · rw [h0] at htw
        exact absurd htw (by norm_num)
      · exact hth h0
    | error e => rw [hreach e hb]

/-- C12 (witness): on the `(1,1,4,4)` input the call returns with the `64x16`
small-filter spec and ends in a division by zero with the `0x0` one. -/
theorem small_branch_defined_iff_witness :
    (((∃ r, upfirdn2d_body chooseSmall allocZero rampInput unitFilter 1 1 1 1 0 0 0 0 false 1
          = .ok r) ↔ ((1 : Int) ≤ 64 ∧ (16 : Int) ≠ 0)) ∧
      (upfirdn2d_body chooseSmall allocZero rampInput unitFilter 1 1 1 1 0 0 0 0 false 1
          = .error Failure.divisionByZero ↔ ((64 : Int) = 0 ∨ (16 : Int) = 0))) ∧
    (((∃ r, upfirdn2d_body chooseZeroTile allocZero rampInput unitFilter 1 1 1 1 0 0 0 0 false 1
          = .ok r) ↔ ((1 : Int) ≤ 0 ∧ (0 : Int) ≠ 0)) ∧
      (upfirdn2d_body chooseZeroTile allocZero rampInput unitFilter 1 1 1 1 0 0 0 0 false 1
          = .error Failure.divisionByZero ↔ ((0 : Int) = 0 ∨ (0 : Int) = 0))) :=
  ⟨small_branch_defined_iff ⟨64, 16, 1, 1⟩ (fun _ => rfl)
      (fun e h => by
        rw [show upfirdn2d_body chooseSmall allocZero rampInput unitFilter 1 1 1 1 0 0 0 0
          false 1 = .ok _ from rfl] at h
        cases h)
      (by decide) (by decide) (by decide) (by decide),
    small_branch_defined_iff ⟨0, 0, 1, 1⟩ (fun _ => rfl)
      (fun e h => by
        rw [show upfirdn2d_body chooseZeroTile allocZero rampInput unitFilter 1 1 1 1 0 0 0 0
          false 1 = .error Failure.divisionByZero from rfl] at h
        cases h
        rfl)
      (by decide) (by decide) (by decide) (by decide)⟩

/-- C13 (the code departs from the claim).  On the `(1,1,1,65536)` input with
`upx = 65537`, a `1x1` filter, no padding and `downx = 1` the call is accepted
with `outW = 65536`, yet the window condition still holds for
`n = outW + 1 = 65537` (indeed up to `4295032832`): `outW` is not the largest
such `n`. -/
theorem upfirdn2d_width_not_maximal_at_up_65537 :
    returnedSizes (upfirdn2d chooseLarge allocZero wideInput unitFilter 65537 1 1 1 0 0 0 0 false 1)
      = .ok [1, 1, 1, 65536] ∧
    windowFits 65536 1 1 65536 65537 0 0 ∧
    windowFits (65536 + 1) 1 1 65536 65537 0 0 := by
  refine ⟨rfl, by decide, by decide⟩

/-- C14.  The divisions of `upfirdn2d` by caller-derived values meet a non-zero
divisor: when the argument checks fail the call ends with that failure before
lines 41-42, and when they pass `downx` and `downy` are non-zero and
`loopMajor >= 1`, whatever the output tensor, the padding and the kernel spec,
so the division computing `launchMajor` is defined. -/
theorem divisions_meet_nonzero_divisors {α G : Type} (x f : Tensor α)
    (upx upy downx downy : Int) :
    (∀ e, validateArguments x f upx upy downx downy = .error e →
      ∀ (choose : ScalarType → upfirdn2d_kernel_params G → upfirdn2d_kernel_spec)
        (alloc : Nat → Option (List α)) (padx0 padx1 pady0 pady1 : Int) (flip : Bool) (gain : G),
        upfirdn2d_body choose alloc x f upx upy downx downy padx0 padx1 pady0 pady1 flip gain
          = .error e) ∧
    (validateArguments x f upx upy downx downy = .ok () →
      downx ≠ 0 ∧ downy ≠ 0 ∧
      ∀ (y : Tensor α) (padx0 pady0 : Int) (flip : Bool) (gain : G)
        (spec : upfirdn2d_kernel_spec),
        1 ≤ (setLoopingOptions
          (initParams x f y upx upy downx downy padx0 pady0 flip gain) spec).loopMajor) := by
  refine ⟨fun e he choose alloc padx0 padx1 pady0 pady1 flip gain =>
    upfirdn2d_body_error_of_validate choose alloc x f upx upy downx downy padx0 padx1 pady0 pady1
      flip gain e he, ?_⟩
  intro hv
  have hval := (validateArguments_eq_ok_iff x f upx upy downx downy).mp hv
  obtain ⟨_, _, _, _, _, _, _, _, _, hdx, hdy⟩ := hval
  refine ⟨ne_of_gt (lt_of_lt_of_le zero_lt_one hdx), ne_of_gt (lt_of_lt_of_le zero_lt_one hdy),
    ?_⟩
  intro y padx0 pady0 flip gain spec
  obtain ⟨hS1, hS2⟩ := sizeMajor_range_of_valid x f y upx upy downx downy padx0 pady0 flip gain hv
  have e : (setLoopingOptions
      (initParams x f y upx upy downx downy padx0 pady0 flip gain) spec).loopMajor
      = ceilDiv (initParams x f y upx upy downx downy padx0 pady0 flip gain).sizeMajor 16384 :=
    ceilIdiom_eq _ 16384 hS1 hS2 (by norm_num)
  rw [e]
  exact (ceilDiv_bounds _ 16384 hS1 (by norm_num)).1

/-- C14 (witness): the checks pass on the `(1,1,4,4)` input with all factors 1. -/
theorem divisions_meet_nonzero_divisors_witness :
    (1 : Int) ≠ 0 ∧ (1 : Int) ≠ 0 ∧
      ∀ (y : Tensor Int) (padx0 pady0 : Int) (flip : Bool) (gain : Int)
        (spec : upfirdn2d_kernel_spec),
        1 ≤ (setLoopingOptions
          (initParams rampInput unitFilter y 1 1 1 1 padx0 pady0 flip gain) spec).loopMajor :=
  (divisions_meet_nonzero_divisors rampInput unitFilter 1 1 1 1).2 rfl

/-- C15 (counterexample).  The `(1,1,4,4)` input whose outer axes of extent 1
carry a stride of `2^40` is accepted, and the record stores `0` for both
strides; the `2x1` filter whose rows are `2^32+1` apart is accepted, and the
record stores `1` for that stride. -/
theorem params_strides_are_narrowed :
    ((upfirdn2d_body chooseLarge allocZero stridedInput unitFilter 1 1 1 1 0 0 0 0 false 1).map
        (fun r => r.p.inStride) = .ok ⟨1, 4, 0, 0⟩ ∧
      stridedInput.stride 1 = 1099511627776 ∧ stridedInput.stride 0 = 1099511627776) ∧
    ((upfirdn2d_body chooseLarge allocZero rampInput stridedFilter 1 1 1 1 0 0 0 0 false 1).map
        (fun r => r.p.filterStride) = .ok ⟨1, 1⟩ ∧
      stridedFilter.stride 0 = 4294967297) := by
  refine ⟨⟨rfl, rfl, rfl⟩, rfl, rfl⟩

/-- C15 (amended).  For every accepted call the extents stored in `inSize` and
`filterSize` equal the tensors' own 64-bit values, and so does each stride of
`x` stored in `inStride` along an axis of extent at least 2, provided the
strides of `x` are not negative and the sum of `(size-1)*stride` is
representable in `int64_t`. -/
theorem params_keep_extents_and_strides {α G : Type}
    {choose : ScalarType → upfirdn2d_kernel_params G → upfirdn2d_kernel_spec}
    {alloc : Nat → Option (List α)}
    {x f : Tensor α} {upx upy downx downy padx0 padx1 pady0 pady1 : Int} {flip : Bool}
    {gain : G} {r : Launch α G}
    (h : upfirdn2d_body choose alloc x f upx upy downx downy padx0 padx1 pady0 pady1 flip gain
      = .ok r) :
    r.p.inSize = ⟨x.size 3, x.size 2, x.size 1, x.size 0⟩ ∧
    r.p.filterSize = ⟨f.size 1, f.size 0⟩ ∧
    ((∀ a ∈ x.axes, 0 ≤ a.stride) → exactFootprint x.axes ≤ 2 ^ 63 - 1 →
      (2 ≤ x.size 3 → r.p.inStride.x = x.stride 3) ∧
      (2 ≤ x.size 2 → r.p.inStride.y = x.stride 2) ∧
      (2 ≤ x.size 1 → r.p.inStride.z = x.stride 1) ∧
      (2 ≤ x.size 0 → r.p.inStride.w = x.stride 0)) := by
  obtain ⟨hv, _, _, fresh, _, _, _, _, _, _, hp, _⟩ := upfirdn2d_body_eq_ok h
  have hval := (validateArguments_eq_ok_iff x f upx upy downx downy).mp hv
  obtain ⟨a0, a1, a2, a3, hax, p0, p1, p2, p3, hprod⟩ := input_axes_of_valid hval
  obtain ⟨_, hn0, hn1, hn2, hn3⟩ := le_of_prod4_le p0 p1 p2 p3 hprod
  obtain ⟨b0, b1, hfax, q0, q1, hfprod⟩ := filter_axes_of_valid hval
  have hb0 : b0.size ≤ 2147483647 := le_trans (Nat.le_mul_of_pos_right _ q1) hfprod
  have hb1 : b1.size ≤ 2147483647 := le_trans (Nat.le_mul_of_pos_left _ q0) hfprod
  have hfoot : x.footprint ≤ 2 ^ 31 - 1 := hval.2.2.2.2.2.2.1
  have hdim : x.dim = 4 := hval.2.2.2.2.1
  have e0 : x.size 0 = (a0.size : Int) := by simp [Tensor.size, hax]
  have e1 : x.size 1 = (a1.size : Int) := by simp [Tensor.size, hax]
  have e2 : x.size 2 = (a2.size : Int) := by simp [Tensor.size, hax]
  have e3 : x.size 3 = (a3.size : Int) := by simp [Tensor.size, hax]
  have g0 : f.size 0 = (b0.size : Int) := by simp [Tensor.size, hfax]
  have g1 : f.size 1 = (b1.size : Int) := by simp [Tensor.size, hfax]
  have t0 : x.stride 0 = a0.stride := by simp [Tensor.stride, hax]
  have t1 : x.stride 1 = a1.stride := by simp [Tensor.stride, hax]
  have t2 : x.stride 2 = a2.stride := by simp [Tensor.stride, hax]
  have t3 : x.stride 3 = a3.stride := by simp [Tensor.stride, hax]
  have hin : r.p.inSize = ⟨wrapInt (x.size 3), wrapInt (x.size 2), wrapInt (x.size 1),
      wrapInt (x.size 0)⟩ := by rw [hp]; rfl
  have hfs : r.p.filterSize = ⟨wrapInt (f.size 1), wrapInt (f.size 0)⟩ := by rw [hp]; rfl
  have hst : r.p.inStride = ⟨wrapInt (x.stride 3), wrapInt (x.stride 2), wrapInt (x.stride 1),
      wrapInt (x.stride 0)⟩ := by rw [hp]; rfl
  refine ⟨?_, ?_, ?_⟩
  · rw [hin, e0, e1, e2, e3, wrapInt_natCast hn0, wrapInt_natCast hn1, wrapInt_natCast hn2,
      wrapInt_natCast hn3]
  · rw [hfs, g0, g1, wrapInt_natCast hb0, wrapInt_natCast hb1]
  · intro hs hfit
    have hpos : ∀ a ∈ x.axes, 1 ≤ a.size := by
      rw [hax]
      intro a ha
      simp only [List.mem_cons, List.mem_singleton, List.not_mem_nil, or_false] at ha
      rcases ha with rfl | rfl | rfl | rfl
      · exact p0
      · exact p1
      · exact p2
      · exact p3
    have hfe := footprint_eq_exactFootprint x hdim hpos hs hfit
    rw [hfe, hax] at hfoot
    simp only [exactFootprint] at hfoot
    have s0 : 0 ≤ a0.stride := hs a0 (by rw [hax]; simp)
    have s1 : 0 ≤ a1.stride := hs a1 (by rw [hax]; simp)
    have s2 : 0 ≤ a2.stride := hs a2 (by rw [hax]; simp)
    have s3 : 0 ≤ a3.stride := hs a3 (by rw [hax]; simp)
    have hfoot' : ((a0.size : Int) - 1) * a0.stride + (((a1.size : Int) - 1) * a1.stride
        + (((a2.size : Int) - 1) * a2.stride + (((a3.size : Int) - 1) * a3.stride + 0)))
        ≤ 2147483647 := by
      norm_num at hfoot
      linarith
    obtain ⟨u0, u1, u2, u3⟩ := stride_le_of_footprint a0.size a1.size a2.size a3.size
      a0.stride a1.stride a2.stride a3.stride p0 p1 p2 p3 s0 s1 s2 s3 hfoot'
    rw [hst, e0, e1, e2, e3, t0, t1, t2, t3]
    refine ⟨fun hn => ?_, fun hn => ?_, fun hn => ?_, fun hn => ?_⟩
    · exact wrapInt_eq_self (le_trans (by norm_num) s3) (u3 (by exact_mod_cast hn))
    · exact wrapInt_eq_self (le_trans (by norm_num) s2) (u2 (by exact_mod_cast hn))
    · exact wrapInt_eq_self (le_trans (by norm_num) s1) (u1 (by exact_mod_cast hn))
    · exact wrapInt_eq_self (le_trans (by norm_num) s0) (u0 (by exact_mod_cast hn))

/-- C15 (witness): the amended statement at the contiguous `(1,1,4,4)` input. -/
theorem params_keep_extents_and_strides_witness :
    ∃ r, upfirdn2d_body chooseLarge allocZero rampInput unitFilter 1 1 1 1 0 0 0 0 false 1
        = .ok r ∧
      r.p.inSize = ⟨rampInput.size 3, rampInput.size 2, rampInput.size 1, rampInput.size 0⟩ ∧
      r.p.filterSize = ⟨unitFilter.size 1, unitFilter.size 0⟩ ∧
      ((∀ a ∈ rampInput.axes, 0 ≤ a.stride) → exactFootprint rampInput.axes ≤ 2 ^ 63 - 1 →
        (2 ≤ rampInput.size 3 → r.p.inStride.x = rampInput.stride 3) ∧
        (2 ≤ rampInput.size 2 → r.p.inStride.y = rampInput.stride 2) ∧
        (2 ≤ rampInput.size 1 → r.p.inStride.z = rampInput.stride 1) ∧
        (2 ≤ rampInput.size 0 → r.p.inStride.w = rampInput.stride 0)) :=
  ⟨_, rfl, params_keep_extents_and_strides
    (show upfirdn2d_body chooseLarge allocZero rampInput unitFilter 1 1 1 1 0 0 0 0 false 1
      = .ok _ from rfl)⟩

/-- C16.  A filter that has passed the checks `numel(f) > 0` and
`rank(f) == 2` has both extents at least 1, so for no input does `upfirdn2d`
fail with `f must be at least 1x1`; and a filter with a zero extent, once the
checks of lines 25-30 have passed, is reported as `f has zero size`. -/
theorem filter_extent_check_never_fails {α : Type} (x f : Tensor α)
    (upx upy downx downy : Int) :
    (0 < f.numel → f.dim = 2 → 1 ≤ f.size 0 ∧ 1 ≤ f.size 1) ∧
    validateArguments x f upx upy downx downy ≠ .error Failure.fTooSmall ∧
    ((∃ a ∈ f.axes, a.size = 0) →
      x.device.kind = DeviceType.XPU → f.device = x.device → f.dtype = ScalarType.Float →
      (x.numel : Int) ≤ INT_MAX → 0 < x.numel →
      validateArguments x f upx upy downx downy = .error Failure.fZeroSize) := by
  refine ⟨sizes_pos_of_numel_pos f, validateArguments_ne_fTooSmall x f upx upy downx downy, ?_⟩
  intro hz hx hd ht hn hp
  have h0 := numel_eq_zero_of_zero_extent f hz
  unfold INT_MAX at hn
  have hn' : x.numel ≤ 2147483647 := by exact_mod_cast hn
  unfold validateArguments TORCH_CHECK Tensor.is_xpu
  simp [hx, hd, ht, hn', hp, h0, INT_MAX, bind, Except.bind]

end Upfirdn2d
